import Mathlib

/-!
Verification of the chat4lab untrusted-query safety pipeline.

This file gives a shallow embedding, in Lean 4, of the parts of the
repository that the frozen claims are about:

* `src/src/modules/sql_validator.py`  — `SQLSecurityValidator`
* `src/src/modules/sql_extractor.py`  — `EnhancedSQLExtractor`
* `src/src/modules/sql_models.py`     — `SQLQueryResponse`
* `src/src/modules/smart_retry.py`    — `SmartRetryManager`
* `src/src/modules/db_manager.py`     — `DatabaseManager`

Python strings are modelled as Lean `String`s; `str.upper`, `str.strip`,
substring tests and prefix tests are modelled by executable functions on
the underlying `List Char` (the programs only ever feed them ASCII SQL
keywords).  Python floats are modelled as rationals.  Foreign-library
behaviour (the `sqlparse` tokenizer, `re` regular expressions, `json`,
`pandas`/`sqlite3` storage, `random`, `hashlib`) is modelled explicitly
where a claim depends on it and is otherwise passed in as an explicit
parameter, so every theorem quantifies over the behaviour of the parts
it does not depend on.
-/

namespace Chat4Lab

/-! ## String primitives (Python `str` operations, ASCII fragment) -/

/-- Python `str.upper` (ASCII fragment): uppercase every character. -/
def pyUpper (s : String) : String := ⟨s.data.map Char.toUpper⟩

/-- The `List Char` version of Python `str.strip`: drop whitespace from both ends. -/
def pyStripL (l : List Char) : List Char :=
  ((l.dropWhile Char.isWhitespace).reverse.dropWhile Char.isWhitespace).reverse

/-- Python `str.strip`: drop whitespace from both ends. -/
def pyStrip (s : String) : String := ⟨pyStripL s.data⟩

/-- Python `pat in s` substring test. -/
def pyContains (s pat : String) : Bool := decide (pat.data <:+: s.data)

/-- Python `s.startswith(pat)` prefix test. -/
def pyStartsWith (s pat : String) : Bool := decide (pat.data <+: s.data)

/-- Python `len(s)` (number of characters). -/
def pyLen (s : String) : Nat := s.data.length

/-- Python `s.count(c)` for a single-character argument. -/
def pyCountChar (s : String) (c : Char) : Nat := s.data.countP (· = c)

theorem toNat_ofNat_of_valid {n : Nat} (h : n.isValidChar) :
    (Char.ofNat n).toNat = n := by
  rw [Char.ofNat, dif_pos h]
  rfl

theorem char_eq_iff_toNat {d e : Char} : d = e ↔ d.toNat = e.toNat := by
  constructor
  · intro h; rw [h]
  · intro h
    have h2 := congrArg Char.ofNat h
    rwa [Char.ofNat_toNat, Char.ofNat_toNat] at h2

theorem isWhitespace_eq_decide (d : Char) :
    d.isWhitespace =
      decide (d.toNat = 32 ∨ d.toNat = 9 ∨ d.toNat = 13 ∨ d.toNat = 10) := by
  have hsp : (' ').toNat = 32 := by decide
  have htb : ('\t').toNat = 9 := by decide
  have hcr : ('\r').toNat = 13 := by decide
  have hlf : ('\n').toNat = 10 := by decide
  have h32 : (d = ' ') = (d.toNat = 32) := by rw [char_eq_iff_toNat, hsp]
  have h9 : (d = '\t') = (d.toNat = 9) := by rw [char_eq_iff_toNat, htb]
  have h13 : (d = '\r') = (d.toNat = 13) := by rw [char_eq_iff_toNat, hcr]
  have h10 : (d = '\n') = (d.toNat = 10) := by rw [char_eq_iff_toNat, hlf]
  simp only [Char.isWhitespace, h32, h9, h13, h10]
  by_cases p1 : d.toNat = 32 <;> by_cases p2 : d.toNat = 9 <;>
    by_cases p3 : d.toNat = 13 <;> by_cases p4 : d.toNat = 10 <;>
    simp [p1, p2, p3, p4]

theorem isWhitespace_toUpper (c : Char) :
    c.toUpper.isWhitespace = c.isWhitespace := by
  rw [isWhitespace_eq_decide, isWhitespace_eq_decide]
  simp only [Char.toUpper]
  split
  · rename_i h
    obtain ⟨h1, h2⟩ := h
    have hvalid : Nat.isValidChar (c.toNat - 32) := by
      left; omega
    rw [toNat_ofNat_of_valid hvalid]
    have hne1 : ¬(c.toNat - 32 = 32 ∨ c.toNat - 32 = 9 ∨
        c.toNat - 32 = 13 ∨ c.toNat - 32 = 10) := by omega
    have hne2 : ¬(c.toNat = 32 ∨ c.toNat = 9 ∨ c.toNat = 13 ∨ c.toNat = 10) := by
      omega
    simp [hne1, hne2]
  · rfl

theorem pyStripL_isSub (l : List Char) : pyStripL l <:+: l := by
  unfold pyStripL
  have h0 : ∀ (m : List Char), m.dropWhile Char.isWhitespace <:+ m := by
    intro m
    exact List.dropWhile_suffix _
  have h1 : l.dropWhile Char.isWhitespace <:+ l := h0 l
  have h2 : ((l.dropWhile Char.isWhitespace).reverse.dropWhile
      Char.isWhitespace).reverse <+: l.dropWhile Char.isWhitespace := by
    conv_rhs => rw [← List.reverse_reverse (l.dropWhile Char.isWhitespace)]
    exact List.reverse_prefix.mpr (h0 _)
  exact h2.isInfix.trans h1.isInfix

theorem pyStripL_map_toUpper (l : List Char) :
    (pyStripL l).map Char.toUpper = pyStripL (l.map Char.toUpper) := by
  have hws : (Char.isWhitespace ∘ Char.toUpper) = Char.isWhitespace :=
    funext isWhitespace_toUpper
  unfold pyStripL
  rw [List.dropWhile_map, hws, ← List.map_reverse, List.dropWhile_map, hws,
    ← List.map_reverse]

/-- The operations `str.upper` and `str.strip` commute (uppercasing preserves whitespace). -/
theorem pyUpper_pyStrip_comm (s : String) :
    pyUpper (pyStrip s) = pyStrip (pyUpper s) := by
  unfold pyUpper pyStrip
  exact congrArg String.mk (pyStripL_map_toUpper s.data)

theorem pyContains_of_strip {s pat : String}
    (h : pyContains (pyStrip s) pat = true) : pyContains s pat = true := by
  unfold pyContains at *
  simp only [decide_eq_true_eq] at *
  exact h.trans (pyStripL_isSub s.data)

/-- Python `str.lower` (ASCII fragment). -/
def pyLower (s : String) : String := ⟨s.data.map Char.toLower⟩

/-- Python `', '.join(xs)`. -/
def joinComma (l : List String) : String := String.intercalate ", " l

/-! ## Model of the `sqlparse` tokenizer (`sqlparse.parse`, `.flatten()`)

The validator inspects tokens through `ttype is T.Keyword` /
`ttype is T.Name` identity tests.  `sqlparse` classifies
`SELECT`/`INSERT`/`DELETE`/`UPDATE` as `Token.Keyword.DML` and
`DROP`/`CREATE`/`ALTER`/`TRUNCATE` as `Token.Keyword.DDL`; a Python
`ttype is T.Keyword` identity test succeeds only on the plain
`Token.Keyword` token type, never on its `DML`/`DDL` subtypes.  The
model covers the token fragment the pipeline's inputs consist of:
words (keywords / names), digit runs, whitespace runs and
single-character punctuation. -/

/-- The token types the validator's identity tests distinguish. -/
inductive TType where
  | kw     -- Token.Keyword (plain)
  | dml    -- Token.Keyword.DML (SELECT, INSERT, DELETE, UPDATE)
  | ddl    -- Token.Keyword.DDL (DROP, CREATE, ALTER, TRUNCATE)
  | name   -- Token.Name
  | ws     -- Token.Text.Whitespace
  | punct  -- Token.Punctuation
  | num    -- Token.Literal.Number.Integer
  deriving DecidableEq

/-- A flattened `sqlparse` token: a type tag and its verbatim text. -/
structure Tok where
  ttype : TType
  value : String
  deriving DecidableEq

/-- Keywords `sqlparse` types as `Token.Keyword.DML`. -/
def dmlWords : List String := ["SELECT", "INSERT", "DELETE", "UPDATE"]

/-- Keywords `sqlparse` types as `Token.Keyword.DDL`. -/
def ddlWords : List String := ["DROP", "CREATE", "ALTER", "TRUNCATE"]

/-- Keywords `sqlparse` types as plain `Token.Keyword` (the subset of
its keyword table relevant to the modelled fragment). -/
def plainKeywordWords : List String :=
  ["FROM", "WHERE", "ORDER", "GROUP", "BY", "HAVING", "LIMIT", "OFFSET",
   "JOIN", "INNER", "LEFT", "RIGHT", "OUTER", "ON", "USING", "AND", "OR",
   "NOT", "IN", "EXISTS", "BETWEEN", "LIKE", "IS", "NULL", "AS", "ASC",
   "DESC", "DISTINCT", "UNION", "ALL", "CASE", "WHEN", "THEN", "ELSE",
   "END"]

def isAsciiLetter (c : Char) : Bool :=
  ('A' ≤ c && c ≤ 'Z') || ('a' ≤ c && c ≤ 'z')

def isIdentChar (c : Char) : Bool := isAsciiLetter c || c.isDigit || c = '_'

/-- Classify a lexed word as `sqlparse` does (case-insensitive keyword
table lookup; unknown words are `Token.Name`). -/
def classifyWord (w : String) : TType :=
  if pyUpper w ∈ dmlWords then .dml
  else if pyUpper w ∈ ddlWords then .ddl
  else if pyUpper w ∈ plainKeywordWords then .kw
  else .name

/-- The `sqlparse` tokenizer on the modelled fragment (fuel-bounded
structural recursion; every step consumes at least one character, so
`l.length` fuel is never exhausted). -/
def lexCharsAux (fuel : Nat) (l : List Char) : List Tok :=
  match fuel, l with
  | 0, _ => []
  | _ + 1, [] => []
  | fuel + 1, c :: cs =>
    if c.isWhitespace then
      Tok.mk .ws ⟨c :: cs.takeWhile Char.isWhitespace⟩ ::
        lexCharsAux fuel (cs.dropWhile Char.isWhitespace)
    else if c.isDigit then
      Tok.mk .num ⟨c :: cs.takeWhile Char.isDigit⟩ ::
        lexCharsAux fuel (cs.dropWhile Char.isDigit)
    else if isAsciiLetter c || c = '_' then
      let w : String := ⟨c :: cs.takeWhile isIdentChar⟩
      Tok.mk (classifyWord w) w :: lexCharsAux fuel (cs.dropWhile isIdentChar)
    else
      Tok.mk .punct ⟨[c]⟩ :: lexCharsAux fuel cs

/-- The `sqlparse` tokenizer on the modelled fragment. -/
def lexChars (l : List Char) : List Tok := lexCharsAux l.length l

/-- Model of `sqlparse.parse` splits the token stream into statements after each
`;` (the terminator stays with its statement). -/
def splitStatements (ts : List Tok) (acc : List Tok) : List (List Tok) :=
  match ts with
  | [] => if acc.isEmpty then [] else [acc.reverse]
  | t :: rest =>
    if t.ttype = .punct ∧ t.value = ";" then
      (t :: acc).reverse :: splitStatements rest []
    else
      splitStatements rest (t :: acc)

/-- Model of `sqlparse.parse`: tokenize, then split into statements. -/
def sqlparseModel (sql : String) : List (List Tok) :=
  splitStatements (lexChars sql.data) []

/-- Model of `str(parsed)`: a parsed statement serializes back to its verbatim
token text. -/
def toksStr (ts : List Tok) : String :=
  ts.foldr (fun t acc => t.value ++ acc) ""

/-- A top-level token of a grouped statement (`parsed.tokens`): either a
leaf token or an `Identifier` group wrapping a run of name/`.` tokens.
This is a coarse model of `sqlparse`'s grouping — the validator
functions below only ever test leaf `ttype`s (a group's `ttype` is
`None` in `sqlparse`, so every `ttype is T.Keyword` test on a group is
false), so the exact grouping boundaries never influence a result. -/
inductive GTok where
  | leaf (t : Tok)
  | ident (ts : List Tok)
  deriving DecidableEq

/-- Tokens an `Identifier` group absorbs: names and dots. -/
def isIdentPart (u : Tok) : Bool :=
  u.ttype = TType.name ∨ (u.ttype = TType.punct ∧ u.value = ".")

/-- Fuel-bounded scan for `groupTokens` (one token is consumed per
step, so `ts.length` fuel is never exhausted). -/
def groupTokensAux (fuel : Nat) (ts : List Tok) : List GTok :=
  match fuel, ts with
  | 0, _ => []
  | _ + 1, [] => []
  | fuel + 1, t :: rest =>
    if t.ttype = .name then
      GTok.ident (t :: rest.takeWhile isIdentPart) ::
        groupTokensAux fuel (rest.dropWhile isIdentPart)
    else
      GTok.leaf t :: groupTokensAux fuel rest

/-- Group a statement's flat tokens: runs of names and dots become
`Identifier` groups, all other tokens stay leaves. -/
def groupTokens (ts : List Tok) : List GTok :=
  groupTokensAux ts.length ts

/-! ## Model of `SQLSecurityValidator` (`sql_validator.py`) -/

/-- Model of `SQLValidationResult` (`sql_models.py`). -/
structure SQLValidationResult where
  is_valid : Bool
  is_safe : Bool
  error_type : Option String := none
  error_message : Option String := none
  suggestions : List String := []
  deriving DecidableEq

/-- Model of `self.allowed_tables` (a 4-element set, modelled in source order). -/
def allowedTables : List String := ["CO01M", "CO02M", "CO03M", "CO18H"]

/-- Model of `self.forbidden_keywords` (modelled in source order; only
membership and the identity of the first hit matter). -/
def forbiddenKeywords : List String :=
  ["DROP", "DELETE", "UPDATE", "INSERT", "ALTER", "CREATE", "TRUNCATE",
   "EXEC", "EXECUTE", "SCRIPT", "PROCEDURE", "FUNCTION",
   "GRANT", "REVOKE", "COMMIT", "ROLLBACK", "TRANSACTION"]

/-- Model of `self.sensitive_fields`. -/
def sensitiveFields : List String := ["mpersonid", "maddr"]

/-- Model of `SQLSecurityValidator._basic_validation`. -/
def basicValidation (sql : String) : SQLValidationResult :=
  if sql = "" ∨ pyStrip sql = "" then
    { is_valid := false, is_safe := false,
      error_type := some "empty_sql",
      error_message := some "SQL查詢為空" }
  else
    if ¬ pyStartsWith (pyUpper (pyStrip sql)) "SELECT" then
      { is_valid := false, is_safe := false,
        error_type := some "invalid_operation",
        error_message := some "只允許SELECT查詢操作",
        suggestions := ["請使用SELECT語句查詢資料"] }
    else
      match forbiddenKeywords.find?
          (fun k => pyContains (pyUpper (pyStrip sql)) k) with
      | some k =>
        { is_valid := false, is_safe := false,
          error_type := some "forbidden_keyword",
          error_message := some ("包含禁止的關鍵字: " ++ k),
          suggestions := ["請移除危險的SQL操作關鍵字"] }
      | none => { is_valid := true, is_safe := true }

/-- Model of `SQLSecurityValidator._analyze_ast_security`: scan the flattened
tokens for a forbidden keyword carrying the plain `Token.Keyword` type
(the unknown-keyword branch only emits a debug log). -/
def analyzeAstSecurity (stmt : List Tok) : SQLValidationResult :=
  match stmt.find?
      (fun t => t.ttype = TType.kw ∧ pyUpper t.value ∈ forbiddenKeywords) with
  | some t =>
    { is_valid := false, is_safe := false,
      error_type := some "forbidden_keyword",
      error_message := some ("使用了禁止的關鍵字: " ++ pyUpper t.value) }
  | none => { is_valid := true, is_safe := true }

/-- The keyword loop of `SQLSecurityValidator._extract_table_names`:
after a plain-`Keyword` `FROM`, the first `Token.Name` whose upper-case
form is in the whitelist is taken (then the loop breaks); a clause
keyword ends the scan.  Names that are not whitelisted are skipped
without being recorded. -/
def tableScan (ts : List Tok) (fromFound : Bool) : Option String :=
  match ts with
  | [] => none
  | t :: rest =>
    if t.ttype = TType.kw ∧ pyUpper t.value = "FROM" then
      tableScan rest true
    else if fromFound ∧ t.ttype = TType.kw then
      if pyUpper t.value ∈
          ["WHERE", "ORDER", "GROUP", "HAVING", "LIMIT", "JOIN"] then
        none
      else
        tableScan rest fromFound
    else if fromFound ∧ t.ttype = TType.name ∧ ¬ t.ttype = TType.ws then
      if pyStrip t.value ≠ "" ∧ pyUpper (pyStrip t.value) ∈ allowedTables then
        some (pyStrip t.value)
      else
        tableScan rest fromFound
    else
      tableScan rest fromFound

/-- One step of `re.findall(r'FROM\s+([A-Za-z][A-Za-z0-9_]*)', s, re.I)`:
try to match at the current position, returning the captured identifier
and the remaining input. -/
def matchFromHere (l : List Char) : Option (String × List Char) :=
  match l with
  | c1 :: c2 :: c3 :: c4 :: rest =>
    if c1.toUpper = 'F' ∧ c2.toUpper = 'R' ∧ c3.toUpper = 'O' ∧
        c4.toUpper = 'M' then
      match rest.dropWhile Char.isWhitespace, rest.takeWhile Char.isWhitespace with
      | d :: ds, _ :: _ =>
        if isAsciiLetter d then
          some (⟨d :: ds.takeWhile isIdentChar⟩, ds.dropWhile isIdentChar)
        else none
      | _, _ => none
    else none
  | _ => none

/-- Model of `re.findall` for the FROM-table pattern: scan left to right,
non-overlapping (fuel-bounded; one character is consumed per step even
without a match, so `l.length` fuel is never exhausted). -/
def regexFromAux (fuel : Nat) (l : List Char) : List String :=
  match fuel, l with
  | 0, _ => []
  | _ + 1, [] => []
  | fuel + 1, c :: cs =>
    match matchFromHere (c :: cs) with
    | some (name, rest) => name :: regexFromAux fuel rest
    | none => regexFromAux fuel cs

/-- The regex fallback of `_extract_table_names`. -/
def regexFromMatches (s : String) : List String :=
  regexFromAux s.data.length s.data

/-- Model of `SQLSecurityValidator._extract_table_names` (token scan, then regex
fallback over `str(parsed)`; both only record whitelisted names). -/
def extractTableNames (stmt : List Tok) : List String :=
  match tableScan stmt false with
  | some t => [t]
  | none =>
    match (regexFromMatches (toksStr stmt)).find?
        (fun n => pyUpper n ∈ allowedTables) with
    | some n => [n]
    | none => []

/-- Model of `Identifier.get_name()` on the modelled fragment: the real name is
the last name component of the identifier run (`sqlparse` would prefer
an alias; aliases do not occur in the inputs this model is evaluated
on). -/
def identGetName (ts : List Tok) : String :=
  match (ts.filter (fun t => t.ttype = TType.name)).getLast? with
  | some t => t.value
  | none => ""

/-- The second dot-component of a `table.field` name
(`name.split('.')[1]`). -/
def secondDotComponent (name : String) : String :=
  match name.splitOn "." with
  | _ :: second :: _ => second
  | _ => ""

/-- Model of `extract_from_token` inside `_extract_field_names`: an `Identifier`
contributes its `get_name()`; plain leaf tokens have no `tokens`
attribute and contribute nothing. -/
def extractFromGTok (g : GTok) : List String :=
  match g with
  | .ident ts =>
    let name := identGetName ts
    if pyContains name "." then [secondDotComponent name] else [name]
  | .leaf _ => []

/-- The scan loop of `SQLSecurityValidator._extract_field_names` over
the grouped top-level tokens.  The flag is set only by a token whose
`ttype` is the plain `Token.Keyword` with value `SELECT`; `sqlparse`
types `SELECT` as `Token.Keyword.DML`, so the flag can never be set on
a parsed statement. -/
def fieldLoop (gs : List GTok) (selectFound : Bool) : List String :=
  match gs with
  | [] => []
  | g :: rest =>
    match g with
    | .leaf t =>
      if t.ttype = TType.kw ∧ pyUpper t.value = "SELECT" then
        fieldLoop rest true
      else if selectFound ∧ t.ttype = TType.kw ∧ pyUpper t.value = "FROM" then
        []
      else if selectFound ∧ ¬ t.ttype = TType.ws then
        extractFromGTok g ++ fieldLoop rest selectFound
      else
        fieldLoop rest selectFound
    | .ident _ =>
      if selectFound then
        extractFromGTok g ++ fieldLoop rest selectFound
      else
        fieldLoop rest selectFound

/-- Model of `SQLSecurityValidator._extract_field_names`. -/
def extractFieldNames (gs : List GTok) : List String :=
  fieldLoop gs false

/-- Model of `SQLSecurityValidator._check_sensitive_data_access`. -/
def checkSensitiveDataAccess (gs : List GTok) : SQLValidationResult :=
  let fields := extractFieldNames gs
  let accessed := fields.filter (fun f => pyLower f ∈ sensitiveFields)
  if accessed ≠ [] then
    { is_valid := false, is_safe := false,
      error_type := some "sensitive_data_access",
      error_message := some ("嘗試存取敏感欄位: " ++ joinComma accessed),
      suggestions := ["請避免查詢個人敏感資訊如身分證字號、詳細地址等"] }
  else { is_valid := true, is_safe := true }

/-- Model of `SQLSecurityValidator._has_limit_clause`. -/
def hasLimitClause (gs : List GTok) : Bool :=
  gs.any (fun g =>
    match g with
    | .leaf t => t.ttype = TType.kw ∧ pyUpper t.value = "LIMIT"
    | .ident _ => false)

/-- Model of `SQLSecurityValidator._analyze_sql_structure`. -/
def analyzeSqlStructure (stmt : List Tok) (gs : List GTok) :
    SQLValidationResult :=
  let tables := extractTableNames stmt
  match tables.find?
      (fun t => (t ≠ "" ∧ pyStrip t ≠ "") ∧ ¬ pyUpper t ∈ allowedTables) with
  | some t =>
    { is_valid := false, is_safe := false,
      error_type := some "invalid_table",
      error_message := some ("不允許存取資料表: " ++ t),
      suggestions := ["請使用允許的資料表: " ++ joinComma allowedTables] }
  | none =>
    { is_valid := true, is_safe := true,
      suggestions :=
        if hasLimitClause gs then [] else ["建議添加LIMIT子句限制結果數量"] }

/-- Model of `SQLSecurityValidator.validate_sql`, parameterized by the parser so
that "rejected before any parse" is expressible as independence from
the parser argument.  `validateSql` below instantiates it with the
`sqlparse` model. -/
def validateSqlWith (parse : String → List (List Tok)) (sql : String) :
    SQLValidationResult :=
  let basic := basicValidation sql
  if basic.is_valid = false then basic
  else
    match parse sql with
    | [] =>
      { is_valid := false, is_safe := false,
        error_type := some "parse_error",
        error_message := some "SQL解析失敗: list index out of range",
        suggestions := ["檢查SQL語法是否正確"] }
    | stmt :: _ =>
      let astRes := analyzeAstSecurity stmt
      if astRes.is_safe = false then astRes
      else
        let gs := groupTokens stmt
        let structRes := analyzeSqlStructure stmt gs
        if structRes.is_valid = false then structRes
        else
          let sensRes := checkSensitiveDataAccess gs
          if sensRes.is_safe = false then sensRes
          else { is_valid := true, is_safe := true }

/-- Model of `SQLSecurityValidator.validate_sql`. -/
def validateSql (sql : String) : SQLValidationResult :=
  validateSqlWith sqlparseModel sql

/-- Modelled from the spec: the table identifiers a statement's FROM
clause references (`FROM` followed by an identifier, case-insensitive).
Used to state what a statement references, independently of the
validator's own whitelist-filtered extraction. -/
def specFromTables (sql : String) : List String := regexFromMatches sql

/-- Modelled from the spec: the column identifiers appearing in the
selected-items clause, i.e. the name tokens before the `FROM` keyword. -/
def specSelectedFields (sql : String) : List String :=
  ((lexChars sql.data).takeWhile
      (fun t => ¬(t.ttype = TType.kw ∧ pyUpper t.value = "FROM"))).filterMap
    (fun t => if t.ttype = TType.name then some t.value else none)

/-- The token-scan branch of `_extract_table_names` only records names
whose upper-case form is whitelisted. -/
theorem tableScan_mem_allowed :
    ∀ (ts : List Tok) (b : Bool) (tbl : String),
      tableScan ts b = some tbl → pyUpper tbl ∈ allowedTables := by
  intro ts
  induction ts with
  | nil =>
    intro b tbl h
    simp [tableScan] at h
  | cons hd tl ih =>
    intro b tbl h
    unfold tableScan at h
    split at h
    · exact ih _ _ h
    · split at h
      · split at h
        · cases h
        · exact ih _ _ h
      · split at h
        · split at h
          · rename_i hcond
            injection h with h
            rw [← h]
            exact hcond.2
          · exact ih _ _ h
        · exact ih _ _ h

/-- Both branches of `_extract_table_names` only ever record names whose
upper-case form is whitelisted, so the `invalid_table` branch of
`_analyze_sql_structure` can never fire. -/
theorem extractTableNames_subset_allowed (stmt : List Tok) :
    ∀ t ∈ extractTableNames stmt, pyUpper t ∈ allowedTables := by
  intro t ht
  unfold extractTableNames at ht
  revert ht
  split
  · rename_i tbl hscan
    intro ht
    simp only [List.mem_singleton] at ht
    rw [ht]
    exact tableScan_mem_allowed _ _ _ hscan
  · split
    · rename_i n hfind
      intro ht
      simp only [List.mem_singleton] at ht
      subst ht
      have := List.find?_some hfind
      simpa using this
    · intro ht
      cases ht

/-- The structure check `_analyze_sql_structure` never fails: the whitelist check is only
applied to a table set that was already filtered to the whitelist. -/
theorem analyzeSqlStructure_valid (stmt : List Tok) (gs : List GTok) :
    (analyzeSqlStructure stmt gs).is_valid = true ∧
    (analyzeSqlStructure stmt gs).is_safe = true := by
  unfold analyzeSqlStructure
  rcases hfind : List.find?
      (fun t => decide ((t ≠ "" ∧ pyStrip t ≠ "") ∧ pyUpper t ∉ allowedTables))
      (extractTableNames stmt) with _ | tbl
  · simp only [hfind]
    exact ⟨trivial, trivial⟩
  · exfalso
    have hp := List.find?_some hfind
    have hmem := List.mem_of_find?_eq_some hfind
    have hsub := extractTableNames_subset_allowed stmt tbl hmem
    simp only [decide_eq_true_eq] at hp
    exact hp.2 hsub

/-- Every token the lexer marks as a plain `Token.Keyword` has its
upper-case value in the plain-keyword table. -/
theorem lexCharsAux_kw_mem (fuel : Nat) :
    ∀ (l : List Char), ∀ t ∈ lexCharsAux fuel l,
      t.ttype = TType.kw → pyUpper t.value ∈ plainKeywordWords := by
  induction fuel with
  | zero =>
    intro l t ht
    cases ht
  | succ fuel ih =>
    intro l t ht
    cases l with
    | nil => cases ht
    | cons c cs =>
      unfold lexCharsAux at ht
      split at ht
      · rcases List.mem_cons.mp ht with h | h
        · subst h; intro h2; cases h2
        · exact ih _ t h
      · split at ht
        · rcases List.mem_cons.mp ht with h | h
          · subst h; intro h2; cases h2
          · exact ih _ t h
        · split at ht
          · rcases List.mem_cons.mp ht with h | h
            · subst h
              intro h2
              simp only at h2 ⊢
              unfold classifyWord at h2
              split at h2
              · cases h2
              · split at h2
                · cases h2
                · split at h2
                  · rename_i hm
                    simpa using hm
                  · cases h2
            · exact ih _ t h
          · rcases List.mem_cons.mp ht with h | h
            · subst h; intro h2; cases h2
            · exact ih _ t h

/-- Leaf tokens of the grouped stream come from the flat stream. -/
theorem groupTokensAux_leaf_mem (fuel : Nat) :
    ∀ (ts : List Tok) (t : Tok), GTok.leaf t ∈ groupTokensAux fuel ts →
      t ∈ ts := by
  induction fuel with
  | zero =>
    intro ts t ht
    cases ht
  | succ fuel ih =>
    intro ts t ht
    cases ts with
    | nil => cases ht
    | cons hd rest =>
      unfold groupTokensAux at ht
      split at ht
      · rcases List.mem_cons.mp ht with h | h
        · cases h
        · have hmem := ih _ t h
          have hsuf : List.dropWhile isIdentPart rest <:+ rest :=
            List.dropWhile_suffix _
          exact List.mem_cons_of_mem hd (hsuf.sublist.mem hmem)
      · rcases List.mem_cons.mp ht with h | h
        · have heq : t = hd := by injection h
          subst heq
          exact List.mem_cons_self _ _
        · exact List.mem_cons_of_mem hd (ih _ t h)

/-- The field-scan loop with the select flag still down returns nothing
when no leaf is a plain-`Keyword` `SELECT` token. -/
theorem fieldLoop_nil (gs : List GTok)
    (h : ∀ t : Tok, GTok.leaf t ∈ gs →
      ¬(t.ttype = TType.kw ∧ pyUpper t.value = "SELECT")) :
    fieldLoop gs false = [] := by
  induction gs with
  | nil => rfl
  | cons g rest ih =>
    have hrest : ∀ t : Tok, GTok.leaf t ∈ rest →
        ¬(t.ttype = TType.kw ∧ pyUpper t.value = "SELECT") := by
      intro t ht
      exact h t (List.mem_cons_of_mem g ht)
    cases g with
    | leaf t =>
      have hne := h t (List.mem_cons_self _ _)
      unfold fieldLoop
      dsimp only
      rw [if_neg hne]
      simp only [Bool.false_eq_true, false_and, if_false]
      exact ih hrest
    | ident ts =>
      unfold fieldLoop
      dsimp only
      simp only [Bool.false_eq_true, if_false]
      exact ih hrest

/-- Statement tokens come from the token stream handed to the splitter. -/
theorem splitStatements_mem :
    ∀ (ts acc s : List Tok), s ∈ splitStatements ts acc →
      ∀ u ∈ s, u ∈ ts ∨ u ∈ acc := by
  intro ts
  induction ts with
  | nil =>
    intro acc s hs u hu
    unfold splitStatements at hs
    split at hs
    · cases hs
    · simp only [List.mem_singleton] at hs
      subst hs
      right
      simpa using hu
  | cons hd rest ih =>
    intro acc s hs u hu
    unfold splitStatements at hs
    split at hs
    · rcases List.mem_cons.mp hs with h1 | h1
      · subst h1
        simp only [List.mem_reverse, List.mem_cons] at hu
        rcases hu with hu | hu
        · left; exact hu ▸ List.mem_cons_self hd rest
        · right; exact hu
      · rcases ih [] s h1 u hu with h2 | h2
        · left; exact List.mem_cons_of_mem hd h2
        · cases h2
    · rcases ih (hd :: acc) s hs u hu with h2 | h2
      · left; exact List.mem_cons_of_mem hd h2
      · rcases List.mem_cons.mp h2 with h3 | h3
        · left; exact h3 ▸ List.mem_cons_self hd rest
        · right; exact h3

/-- On every parsed statement, `_extract_field_names` returns the empty
set: `sqlparse` types `SELECT` as `Keyword.DML`, so the scan's
`ttype is T.Keyword` guard never raises the select flag, and the
sensitive-field check can never fire. -/
theorem extractFieldNames_nil (sql : String) (stmt : List Tok)
    (h : stmt ∈ sqlparseModel sql) :
    extractFieldNames (groupTokens stmt) = [] := by
  unfold extractFieldNames groupTokens
  apply fieldLoop_nil
  intro t ht hsel
  have hmem : t ∈ stmt := groupTokensAux_leaf_mem _ _ t ht
  have hlex : t ∈ lexChars sql.data := by
    unfold sqlparseModel at h
    rcases splitStatements_mem _ _ _ h t hmem with h1 | h1
    · exact h1
    · cases h1
  exact absurd (lexCharsAux_kw_mem _ _ t hlex hsel.1)
    (by rw [hsel.2]; decide)

/-- The check `_check_sensitive_data_access` succeeds on every parsed statement. -/
theorem checkSensitive_always_safe (sql : String) (stmt : List Tok)
    (h : stmt ∈ sqlparseModel sql) :
    checkSensitiveDataAccess (groupTokens stmt) =
      { is_valid := true, is_safe := true } := by
  unfold checkSensitiveDataAccess
  rw [extractFieldNames_nil sql stmt h]
  rfl

/-! ## Claim theorems for the Security Validator -/

/-- C1: the claimed invariant — an outcome with `is_valid = true` and
`is_safe = true` implies the statement references only whitelisted
tables (among the other conjuncts) — fails on the code.  `validate_sql`
accepts `SELECT hval FROM SECRET LIMIT 10` as valid and safe although
its FROM clause references the non-whitelisted table `SECRET`:
`_extract_table_names` records only whitelisted names, so the
whitelist check in `_analyze_sql_structure` is vacuous. -/
theorem c1_policy_safe_invariant_fails_on_code :
    (validateSql "SELECT hval FROM SECRET LIMIT 10").is_valid = true ∧
    (validateSql "SELECT hval FROM SECRET LIMIT 10").is_safe = true ∧
    "SECRET" ∈ specFromTables "SELECT hval FROM SECRET LIMIT 10" ∧
    "SECRET" ∉ allowedTables := by decide

/-- C2: the claim that a FROM clause referencing a table outside the
four-table whitelist makes `validate_sql` fail with `invalid_table`
is false on the code: `SELECT mname FROM PATIENTS` reads from the
non-whitelisted table `PATIENTS` and is reported valid and safe. -/
theorem c2_unknown_table_reported_safe :
    (validateSql "SELECT mname FROM PATIENTS").is_valid = true ∧
    (validateSql "SELECT mname FROM PATIENTS").is_safe = true ∧
    (validateSql "SELECT mname FROM PATIENTS").error_type = none ∧
    "PATIENTS" ∈ specFromTables "SELECT mname FROM PATIENTS" ∧
    "PATIENTS" ∉ allowedTables := by decide

/-- C5: the claim that selecting a blacklisted column makes
`validate_sql` fail with `sensitive_data_access` is false on the code:
`SELECT mpersonid FROM CO01M LIMIT 5` selects the blacklisted
national-ID field `mpersonid` and is reported valid and safe — the
field-extraction scan tests `ttype is T.Keyword` while `sqlparse`
types `SELECT` as `Keyword.DML`, so no field is ever collected. -/
theorem c5_sensitive_field_reported_safe :
    (validateSql "SELECT mpersonid FROM CO01M LIMIT 5").is_valid = true ∧
    (validateSql "SELECT mpersonid FROM CO01M LIMIT 5").is_safe = true ∧
    "mpersonid" ∈ specSelectedFields "SELECT mpersonid FROM CO01M LIMIT 5" ∧
    "mpersonid" ∈ sensitiveFields := by decide

/-- C4 (amended): for every input that does not start with the read-only
keyword `SELECT` (after strip/uppercase) or contains a blacklisted
keyword as a substring, `validate_sql` rejects it in `_basic_validation`
before any parsing — the result equals the basic-check result for every
possible parser.  (The claimed statement-terminator count check does not
exist in `_basic_validation`; see the counterexample.) -/
theorem c4_basic_check_rejects_before_parse
    (parse : String → List (List Tok)) (sql : String)
    (h : pyStartsWith (pyUpper (pyStrip sql)) "SELECT" = false ∨
         ∃ k ∈ forbiddenKeywords,
           pyContains (pyUpper (pyStrip sql)) k = true) :
    validateSqlWith parse sql = basicValidation sql ∧
    (basicValidation sql).is_valid = false := by
  have hbasic : (basicValidation sql).is_valid = false := by
    unfold basicValidation
    split
    · rfl
    · split
      · rfl
      · rename_i hne hss
        rcases h with h | ⟨k, hk, hc⟩
        · rw [h] at hss
          simp at hss
        · rcases hfind : forbiddenKeywords.find?
              (fun k => pyContains (pyUpper (pyStrip sql)) k) with _ | k2
          · exfalso
            exact absurd hc (by simpa using List.find?_eq_none.mp hfind k hk)
          · simp only [hfind]
  refine ⟨?_, hbasic⟩
  unfold validateSqlWith
  simp [hbasic]

/-- C4 counterexample: `SELECT 1; SELECT 2;` contains two statement
terminators yet passes `_basic_validation` — and full validation —
because the basic check never counts terminators. -/
theorem c4_two_terminators_not_rejected :
    1 < pyCountChar "SELECT 1; SELECT 2;" ';' ∧
    (basicValidation "SELECT 1; SELECT 2;").is_valid = true ∧
    (validateSql "SELECT 1; SELECT 2;").is_valid = true ∧
    (validateSql "SELECT 1; SELECT 2;").is_safe = true := by decide

/-- Dropping a leading whitespace run is idempotent across the
right-strip: `pyStripL` is idempotent. -/
theorem pyStripL_idem (l : List Char) : pyStripL (pyStripL l) = pyStripL l := by
  have hhead : ∀ (y : List Char) (c : Char) (t : List Char),
      y.dropWhile Char.isWhitespace = c :: t → Char.isWhitespace c = false := by
    intro y c t h
    have hx := List.head?_dropWhile_not Char.isWhitespace y
    rw [h] at hx
    simpa using hx
  have hA : (pyStripL l).dropWhile Char.isWhitespace = pyStripL l := by
    rcases hm' : pyStripL l with _ | ⟨c, t⟩
    · rfl
    · have hpre : pyStripL l <+: l.dropWhile Char.isWhitespace := by
        unfold pyStripL
        conv_rhs => rw [← List.reverse_reverse (l.dropWhile Char.isWhitespace)]
        exact List.reverse_prefix.mpr (List.dropWhile_suffix _)
      rw [hm'] at hpre
      obtain ⟨t2, ht2⟩ := hpre
      have hc : Char.isWhitespace c = false := by
        apply hhead l c (t ++ t2)
        rw [← ht2]
        rfl
      rw [List.dropWhile_cons_of_neg (by simp [hc])]
  have hout : pyStripL (pyStripL l) =
      (((pyStripL l).dropWhile Char.isWhitespace).reverse.dropWhile
        Char.isWhitespace).reverse := rfl
  rw [hout, hA]
  rcases hrev : (pyStripL l).reverse with _ | ⟨d, u⟩
  · have hnil : pyStripL l = [] := by
      simpa using congrArg List.reverse hrev
    rw [hnil]
    rfl
  · have hd : Char.isWhitespace d = false := by
      have h2 : (pyStripL l).reverse =
          (l.dropWhile Char.isWhitespace).reverse.dropWhile Char.isWhitespace := by
        unfold pyStripL
        rw [List.reverse_reverse]
      have h1 : ((l.dropWhile Char.isWhitespace).reverse.dropWhile
          Char.isWhitespace).head? = some d := by
        rw [← h2, hrev]
        rfl
      have hx := List.head?_dropWhile_not Char.isWhitespace
        (l.dropWhile Char.isWhitespace).reverse
      rw [h1] at hx
      simpa using hx
    rw [List.dropWhile_cons_of_neg (by simp [hd]), ← hrev,
      List.reverse_reverse]

/-- Python `str.strip` is idempotent. -/
theorem pyStrip_idem (s : String) : pyStrip (pyStrip s) = pyStrip s := by
  unfold pyStrip
  exact congrArg String.mk (pyStripL_idem s.data)

/-- C4 witness: the amended theorem applied to the concrete non-SELECT
input `DELETE FROM CO01M`. -/
theorem c4_basic_check_witness :
    (pyStartsWith (pyUpper (pyStrip "DELETE FROM CO01M")) "SELECT" = false ∨
      ∃ k ∈ forbiddenKeywords,
        pyContains (pyUpper (pyStrip "DELETE FROM CO01M")) k = true) ∧
    (validateSqlWith sqlparseModel "DELETE FROM CO01M" =
        basicValidation "DELETE FROM CO01M" ∧
      (basicValidation "DELETE FROM CO01M").is_valid = false) :=
  ⟨Or.inl (by decide),
   c4_basic_check_rejects_before_parse sqlparseModel "DELETE FROM CO01M"
     (Or.inl (by decide))⟩

/-! ## Model of `SQLQueryResponse` (`sql_models.py`) and the extractor
(`sql_extractor.py`)

The extractor's regular expressions and `_clean_sql` substitution chain
are passed in as parameters (`ExtractorEnv`); everything a claim
depends on — the acceptance predicate `_is_valid_sql_format`, the
pydantic validation of the structured response, the strategy order,
confidence weights and the best-candidate/early-exit loop — is modelled
concretely.  `json.loads` is modelled for flat objects with string keys
and string values and no escape sequences; anything outside that
fragment parses to `none`. -/

/-- The `QueryType` enumeration values. -/
def queryTypeValues : List String :=
  ["patient_info", "visit_record", "prescription", "lab_result",
   "statistics", "general"]

/-- The `ConfidenceLevel` enumeration values. -/
def confidenceValues : List String := ["high", "medium", "low"]

/-- The write/DDL keyword list shared by
`SQLQueryResponse.validate_sql_query` (`dangerous_keywords`) and
`EnhancedSQLExtractor._is_valid_sql_format` (`dangerous_operations`). -/
def dangerousKeywords : List String :=
  ["DROP", "DELETE", "UPDATE", "INSERT", "ALTER", "CREATE", "TRUNCATE"]

/-- The `validate_sql_query` pydantic validator: non-blank, starts with
`SELECT` after strip/upper, no dangerous keyword substring in the
uppercased (unstripped) text; returns the stripped query. -/
def validateSqlQueryField (v : String) : Option String :=
  if pyStrip v = "" then none
  else if ¬ pyStartsWith (pyUpper (pyStrip v)) "SELECT" then none
  else if (dangerousKeywords.find? (fun k => pyContains (pyUpper v) k)).isSome
  then none
  else some (pyStrip v)

/-- The validated fields of a `SQLQueryResponse`. -/
structure SQLQueryResponse where
  sql_query : String
  query_type : String
  confidence : String
  explanation : String
  deriving DecidableEq

/-- Dictionary lookup on a decoded JSON object (`json.loads` keeps the
last occurrence of a duplicated key). -/
def dictGet (data : List (String × String)) (key : String) : Option String :=
  (data.reverse.find? (fun p => p.fst = key)).map Prod.snd

/-- Model of `SQLQueryResponse(**data)` on a flat string-valued JSON object:
required-field presence, `Field` length bounds, enum membership and the
custom validators; unknown extra keys are ignored (pydantic v1
default), while the typed optional keys are outside the modelled
fragment and rejected. -/
def mkSQLQueryResponse (data : List (String × String)) :
    Option SQLQueryResponse :=
  if (dictGet data "table_mapping").isSome ∨
      (dictGet data "field_mapping").isSome ∨
      (dictGet data "estimated_results").isSome ∨
      (dictGet data "warnings").isSome then none
  else
    match dictGet data "sql_query", dictGet data "query_type",
        dictGet data "confidence", dictGet data "explanation" with
    | some q, some qt, some cf, some ex =>
      if pyLen q < 10 ∨ 2000 < pyLen q then none
      else if ¬ qt ∈ queryTypeValues then none
      else if ¬ cf ∈ confidenceValues then none
      else if pyLen ex < 5 ∨ 500 < pyLen ex then none
      else if pyStrip ex = "" then none
      else
        match validateSqlQueryField q with
        | none => none
        | some q2 => some ⟨q2, qt, cf, pyStrip ex⟩
    | _, _, _, _ => none

/-- Skip JSON whitespace. -/
def skipWs (l : List Char) : List Char := l.dropWhile Char.isWhitespace

/-- Parse a JSON string literal without escape sequences. -/
def parseJString : List Char → Option (String × List Char)
  | '"' :: rest =>
    match rest.dropWhile (fun c => ¬(c = '"' ∨ c = '\\')) with
    | '"' :: rest2 =>
      some (⟨rest.takeWhile (fun c => ¬(c = '"' ∨ c = '\\'))⟩, rest2)
    | _ => none
  | _ => none

/-- Parse the members of a JSON object (after the opening brace). -/
def parseJPairs (fuel : Nat) (l : List Char)
    (acc : List (String × String)) : Option (List (String × String)) :=
  match fuel with
  | 0 => none
  | fuel + 1 =>
    match parseJString (skipWs l) with
    | none => none
    | some (k, r1) =>
      match skipWs r1 with
      | ':' :: r2 =>
        match parseJString (skipWs r2) with
        | none => none
        | some (v, r3) =>
          match skipWs r3 with
          | ',' :: r4 => parseJPairs fuel r4 ((k, v) :: acc)
          | '\x7d' :: r5 =>
            if (skipWs r5).isEmpty then some ((k, v) :: acc).reverse else none
          | _ => none
      | _ => none

/-- Model of `json.loads` on the flat string-object fragment. -/
def jsonLoadsFlat (s : String) : Option (List (String × String)) :=
  match skipWs s.data with
  | '\x7b' :: r =>
    match skipWs r with
    | '\x7d' :: r2 => if (skipWs r2).isEmpty then some [] else none
    | _ => parseJPairs s.data.length r []
  | _ => none

/-- Model of `re.search(r'\{.*\}', response, re.DOTALL)`: the greedy match spans
from the first `{` to the last `}` (if that pair exists in order). -/
def braceSpan (s : String) : Option String :=
  match s.data.dropWhile (fun c => ¬ c = '\x7b') with
  | [] => none
  | rest =>
    match rest.reverse.dropWhile (fun c => ¬ c = '\x7d') with
    | [] => none
    | rev => some ⟨rev.reverse⟩

/-- Model of `SQLExtractionResult` (`sql_models.py`). -/
structure SQLExtractionResult where
  success : Bool
  sql_query : Option String
  extraction_method : String
  confidence_score : ℚ
  raw_response : String
  error_message : Option String := none
  deriving DecidableEq

/-- Model of `EnhancedSQLExtractor._extract_structured_json`. -/
def extractStructuredJson (response : String) : Option SQLExtractionResult :=
  match braceSpan response with
  | none => none
  | some jsonStr =>
    match jsonLoadsFlat jsonStr with
    | none => none
    | some data =>
      match mkSQLQueryResponse data with
      | none => none
      | some resp =>
        some { success := true, sql_query := some resp.sql_query,
               extraction_method := "structured_json", confidence_score := 1,
               raw_response := response }

/-- Model of `EnhancedSQLExtractor._is_valid_sql_format`. -/
def isValidSqlFormat (sql : String) : Bool :=
  if sql = "" ∨ pyLen sql < 10 then false
  else if ¬ pyStartsWith (pyStrip (pyUpper sql)) "SELECT" then false
  else if ¬ (pyContains (pyStrip (pyUpper sql)) "SELECT" ∧
      pyContains (pyStrip (pyUpper sql)) "FROM") then false
  else if (dangerousKeywords.find?
      (fun k => pyContains (pyStrip (pyUpper sql)) k)).isSome then false
  else true

/-- Model of `EnhancedSQLExtractor._extract_json_sql_field`: the regex search and
`json.loads` over candidate fragments is the `fieldCandidates`
parameter, each candidate being a recovered `sql_query` value; the
non-blank check, `_clean_sql` and `_is_valid_sql_format` gate
acceptance. -/
def extractJsonSqlField (fieldCandidates : String → List String)
    (cleaner : String → String) (response : String) :
    Option SQLExtractionResult :=
  (fieldCandidates response).findSome? (fun cand =>
    if pyStrip cand ≠ "" then
      if isValidSqlFormat (cleaner cand) then
        some { success := true, sql_query := some (cleaner cand),
               extraction_method := "json_sql_field",
               confidence_score := mkRat 9 10, raw_response := response }
      else none
    else none)

/-- Model of `EnhancedSQLExtractor._calculate_pattern_confidence`. -/
def calcPatternConfidence (hasSelectStar : String → Bool) (sql : String)
    (weight : ℚ) : ℚ :=
  min 1 (weight +
    ((if pyContains (pyUpper sql) "LIMIT" then mkRat 1 10 else 0) +
     (if pyContains (pyUpper sql) "WHERE" then mkRat 1 10 else 0) +
     (if ¬ hasSelectStar sql then mkRat 1 20 else 0) +
     (if 20 ≤ pyLen sql ∧ pyLen sql ≤ 500 then mkRat 1 20 else 0)))

/-- Model of `EnhancedSQLExtractor._extract_with_pattern`, with the pattern's
`re.findall` as the `matches` parameter. -/
def extractWithPattern (patMatches : String → List String)
    (cleaner : String → String) (hasSelectStar : String → Bool)
    (methodName : String) (weight : ℚ) (response : String) :
    Option SQLExtractionResult :=
  (patMatches response).findSome? (fun m =>
    if isValidSqlFormat (cleaner m) then
      some { success := true, sql_query := some (cleaner m),
             extraction_method := methodName,
             confidence_score :=
               calcPatternConfidence hasSelectStar (cleaner m) weight,
             raw_response := response }
    else none)

/-- The foreign `re`-module behaviour the extractor depends on, passed
as explicit parameters: the `_clean_sql` substitution chain, the
`json_sql_field` candidate enumeration, the four pattern `findall`s and
the `SELECT *` search of the confidence bonus. -/
structure ExtractorEnv where
  cleaner : String → String
  fieldCandidates : String → List String
  sqlBlockMatches : String → List String
  genericBlockMatches : String → List String
  selectStmtMatches : String → List String
  multilineMatches : String → List String
  hasSelectStar : String → Bool

/-- The six extraction strategies of `extract_sql`, in method order with
their confidence weights. -/
def methodResults (env : ExtractorEnv) (response : String) :
    List (Option SQLExtractionResult) :=
  [extractStructuredJson response,
   extractJsonSqlField env.fieldCandidates env.cleaner response,
   extractWithPattern env.sqlBlockMatches env.cleaner env.hasSelectStar
     "sql_code_block" (mkRat 8 10) response,
   extractWithPattern env.genericBlockMatches env.cleaner env.hasSelectStar
     "generic_code_block" (mkRat 7 10) response,
   extractWithPattern env.selectStmtMatches env.cleaner env.hasSelectStar
     "select_statement" (mkRat 6 10) response,
   extractWithPattern env.multilineMatches env.cleaner env.hasSelectStar
     "multiline_select" (mkRat 1 2) response]

/-- The strategy loop of `extract_sql`: keep the strictly-best
confidence, stop early once it reaches 0.9. -/
def extractLoop (results : List (Option SQLExtractionResult))
    (best : Option SQLExtractionResult) (bestConf : ℚ) :
    Option SQLExtractionResult :=
  match results with
  | [] => best
  | r :: rest =>
    match r with
    | some res =>
      if bestConf < res.confidence_score then
        if mkRat 9 10 ≤ res.confidence_score then some res
        else extractLoop rest (some res) res.confidence_score
      else extractLoop rest best bestConf
    | none => extractLoop rest best bestConf

/-- Model of `EnhancedSQLExtractor.extract_sql`. -/
def extractSql (env : ExtractorEnv) (response : String) :
    SQLExtractionResult :=
  match extractLoop (methodResults env response) none 0 with
  | some best => best
  | none =>
    { success := false, sql_query := none, extraction_method := "none",
      confidence_score := 0, raw_response := response,
      error_message := some "無法從回應中提取任何SQL語句" }

/-! ## Claim theorems for the Extraction Engine -/

/-- What passing `_is_valid_sql_format` guarantees. -/
theorem isValidSqlFormat_true {s : String} (h : isValidSqlFormat s = true) :
    ¬ s = "" ∧ 10 ≤ pyLen s ∧
    pyStartsWith (pyStrip (pyUpper s)) "SELECT" = true ∧
    pyContains (pyStrip (pyUpper s)) "FROM" = true ∧
    ∀ k ∈ dangerousKeywords, pyContains (pyStrip (pyUpper s)) k = false := by
  unfold isValidSqlFormat at h
  split_ifs at h with h1 h2 h3 h4
  push_neg at h1 h2 h3
  refine ⟨h1.1, by omega, by simpa using h2, h3.2, ?_⟩
  intro k hk
  rcases hfind : dangerousKeywords.find?
      (fun k => pyContains (pyStrip (pyUpper s)) k) with _ | k2
  · simpa using List.find?_eq_none.mp hfind k hk
  · rw [hfind] at h4
    simp at h4

/-- What the pydantic `validate_sql_query` validator guarantees about
the stripped query it returns. -/
theorem validateSqlQueryField_some {v s : String}
    (h : validateSqlQueryField v = some s) :
    s = pyStrip v ∧
    pyStartsWith (pyUpper (pyStrip s)) "SELECT" = true ∧
    ∀ k ∈ dangerousKeywords, pyContains (pyUpper (pyStrip s)) k = false := by
  unfold validateSqlQueryField at h
  split_ifs at h with h1 h2 h3
  injection h with h
  subst h
  push_neg at h2
  refine ⟨rfl, by rw [pyStrip_idem]; simpa using h2, ?_⟩
  intro k hk
  rw [pyStrip_idem]
  rcases hc : pyContains (pyUpper (pyStrip v)) k with _ | _
  · rfl
  · exfalso
    have hc2 : pyContains (pyUpper v) k = true := by
      rw [pyUpper_pyStrip_comm] at hc
      exact pyContains_of_strip hc
    rcases hfind : dangerousKeywords.find?
        (fun k => pyContains (pyUpper v) k) with _ | k2
    · exact absurd hc2 (by simpa using List.find?_eq_none.mp hfind k hk)
    · rw [hfind] at h3
      simp at h3

/-- What `_extract_structured_json` guarantees about a result. -/
theorem extractStructuredJson_some {response : String}
    {r : SQLExtractionResult} (h : extractStructuredJson response = some r) :
    r.success = true ∧ r.extraction_method = "structured_json" ∧
    ∃ s, r.sql_query = some s ∧
      pyStartsWith (pyUpper (pyStrip s)) "SELECT" = true ∧
      ∀ k ∈ dangerousKeywords, pyContains (pyUpper (pyStrip s)) k = false := by
  unfold extractStructuredJson at h
  split at h
  · cases h
  · split at h
    · cases h
    · split at h
      · cases h
      · rename_i data hjson resp hmk
        injection h with h
        subst h
        refine ⟨rfl, rfl, resp.sql_query, rfl, ?_⟩
        unfold mkSQLQueryResponse at hmk
        split_ifs at hmk with hopt
        split at hmk
        · rename_i q qt cf ex hq hqt hcf hex
          split_ifs at hmk with e1 e2 e3 e4 e5
          split at hmk
          · cases hmk
          · rename_i q2 hq2
            injection hmk with hmk
            have hprops := validateSqlQueryField_some hq2
            rw [← hmk]
            exact ⟨hprops.2.1, hprops.2.2⟩
        · cases hmk

/-- What `_extract_json_sql_field` guarantees about a result. -/
theorem extractJsonSqlField_some {fc : String → List String}
    {cl : String → String} {response : String} {r : SQLExtractionResult}
    (h : extractJsonSqlField fc cl response = some r) :
    r.success = true ∧ r.extraction_method = "json_sql_field" ∧
    ∃ s, r.sql_query = some s ∧ isValidSqlFormat s = true := by
  unfold extractJsonSqlField at h
  obtain ⟨cand, _, hf⟩ := List.exists_of_findSome?_eq_some h
  split_ifs at hf with h1 h2
  injection hf with hf
  subst hf
  exact ⟨rfl, rfl, cl cand, rfl, h2⟩

/-- What `_extract_with_pattern` guarantees about a result. -/
theorem extractWithPattern_some {pm : String → List String}
    {cl : String → String} {star : String → Bool} {name : String}
    {w : ℚ} {response : String} {r : SQLExtractionResult}
    (h : extractWithPattern pm cl star name w response = some r) :
    r.success = true ∧ r.extraction_method = name ∧
    ∃ s, r.sql_query = some s ∧ isValidSqlFormat s = true := by
  unfold extractWithPattern at h
  obtain ⟨m, _, hf⟩ := List.exists_of_findSome?_eq_some h
  split_ifs at hf with h1
  injection hf with hf
  subst hf
  exact ⟨rfl, rfl, cl m, rfl, h1⟩

/-- The strategy loop only returns a strategy's result (or the running
best, which is itself one). -/
theorem extractLoop_mem :
    ∀ (results : List (Option SQLExtractionResult))
      (best : Option SQLExtractionResult) (conf : ℚ)
      (r : SQLExtractionResult), extractLoop results best conf = some r →
      some r ∈ results ∨ best = some r := by
  intro results
  induction results with
  | nil =>
    intro best conf r h
    right
    exact h
  | cons x rest ih =>
    intro best conf r h
    unfold extractLoop at h
    split at h
    · rename_i res
      split at h
      · split at h
        · left
          rw [List.mem_cons]
          left
          rw [← h]
        · rcases ih _ _ _ h with h1 | h1
          · left; exact List.mem_cons_of_mem _ h1
          · left
            rw [List.mem_cons]
            left
            rw [← h1]
      · rcases ih _ _ _ h with h1 | h1
        · left; exact List.mem_cons_of_mem _ h1
        · right; exact h1
    · rcases ih _ _ _ h with h1 | h1
      · left; exact List.mem_cons_of_mem _ h1
      · right; exact h1

/-- C3 (amended): every `ExtractionResult` that `extract_sql` returns
with `success = true` — for any behaviour of the regular-expression
components — carries an `sql_text` that starts with `SELECT`
(case-insensitively, after strip) and contains none of the seven
write/DDL keywords; for every strategy other than the fully structured
JSON one the full acceptance predicate `_is_valid_sql_format`
(non-empty, ≥ 10 characters, contains FROM) holds as well.  The
structured JSON strategy does not run `_is_valid_sql_format`, so it
does not guarantee a FROM clause (see the counterexample). -/
theorem c3_accepted_sql_guarantees (env : ExtractorEnv) (response : String)
    (h : (extractSql env response).success = true) :
    ∃ s, (extractSql env response).sql_query = some s ∧
      pyStartsWith (pyUpper (pyStrip s)) "SELECT" = true ∧
      (∀ k ∈ dangerousKeywords, pyContains (pyUpper (pyStrip s)) k = false) ∧
      ((extractSql env response).extraction_method ≠ "structured_json" →
        isValidSqlFormat s = true) := by
  unfold extractSql at h ⊢
  rcases hloop : extractLoop (methodResults env response) none 0 with _ | best
  · rw [hloop] at h
    simp at h
  · dsimp only at h ⊢
    rcases extractLoop_mem _ _ _ _ hloop with hmem | hmem
    · have hprops :
          (best.extraction_method = "structured_json" ∧
            ∃ s, best.sql_query = some s ∧
              pyStartsWith (pyUpper (pyStrip s)) "SELECT" = true ∧
              ∀ k ∈ dangerousKeywords,
                pyContains (pyUpper (pyStrip s)) k = false) ∨
          (∃ s, best.sql_query = some s ∧ isValidSqlFormat s = true) := by
        unfold methodResults at hmem
        simp only [List.mem_cons, List.mem_singleton] at hmem
        rcases hmem with hm | hm | hm | hm | hm | hm | hm
        · obtain ⟨_, hmeth, s, hs, h1, h2⟩ :=
            extractStructuredJson_some hm.symm
          exact Or.inl ⟨hmeth, s, hs, h1, h2⟩
        · obtain ⟨_, _, s, hs, hv⟩ := extractJsonSqlField_some hm.symm
          exact Or.inr ⟨s, hs, hv⟩
        · obtain ⟨_, _, s, hs, hv⟩ := extractWithPattern_some hm.symm
          exact Or.inr ⟨s, hs, hv⟩
        · obtain ⟨_, _, s, hs, hv⟩ := extractWithPattern_some hm.symm
          exact Or.inr ⟨s, hs, hv⟩
        · obtain ⟨_, _, s, hs, hv⟩ := extractWithPattern_some hm.symm
          exact Or.inr ⟨s, hs, hv⟩
        · obtain ⟨_, _, s, hs, hv⟩ := extractWithPattern_some hm.symm
          exact Or.inr ⟨s, hs, hv⟩
        · cases hm
      rcases hprops with ⟨hmeth, s, hs, h1, h2⟩ | ⟨s, hs, hv⟩
      · refine ⟨s, hs, h1, h2, ?_⟩
        intro hne
        exact absurd hmeth hne
      · obtain ⟨hne, hlen, hsel, hfrom, hdang⟩ := isValidSqlFormat_true hv
        refine ⟨s, hs, ?_, ?_, fun _ => hv⟩
        · rwa [pyUpper_pyStrip_comm]
        · intro k hk
          rw [pyUpper_pyStrip_comm]
          exact hdang k hk
    · cases hmem

/-- The concrete generator response used to refute C3: a fully
structured JSON response whose `sql_query` has no FROM clause. -/
def c3resp : String :=
  "\x7b\"sql_query\": \"SELECT 1+1 AS total\", \"query_type\": \"general\", \"confidence\": \"high\", \"explanation\": \"sum12\"\x7d"

/-- A concrete instantiation of the regex components under which the
counterexample is evaluated; on `c3resp` the structured JSON strategy
succeeds with confidence 1.0 ≥ 0.9 and `extract_sql` returns before any
pattern strategy is consulted, so their behaviour is irrelevant. -/
def emptyRegexEnv : ExtractorEnv :=
  { cleaner := id, fieldCandidates := fun _ => [],
    sqlBlockMatches := fun _ => [], genericBlockMatches := fun _ => [],
    selectStmtMatches := fun _ => [], multilineMatches := fun _ => [],
    hasSelectStar := fun _ => false }

/-- C3 counterexample: the fully structured JSON strategy accepts an
`sql_query` with no FROM clause (the pydantic validator checks only the
SELECT prefix and the dangerous keywords), so `extract_sql` returns a
successful result whose `sql_text` does not contain the table-reference
keyword, contradicting the claim for the structured strategy. -/
theorem c3_structured_json_accepts_without_from :
    (extractStructuredJson c3resp).map (fun r => r.success) = some true ∧
    (extractStructuredJson c3resp).map (fun r => r.sql_query) =
      some (some "SELECT 1+1 AS total") ∧
    (extractSql emptyRegexEnv c3resp).success = true ∧
    (extractSql emptyRegexEnv c3resp).sql_query =
      some "SELECT 1+1 AS total" ∧
    (extractSql emptyRegexEnv c3resp).extraction_method =
      "structured_json" ∧
    pyContains (pyUpper "SELECT 1+1 AS total") "FROM" = false := by decide

/-- C3 witness: the amended theorem applied to the concrete response
`c3resp` under the concrete regex instantiation. -/
theorem c3_accepted_sql_witness :
    (extractSql emptyRegexEnv c3resp).success = true ∧
    (∃ s, (extractSql emptyRegexEnv c3resp).sql_query = some s ∧
      pyStartsWith (pyUpper (pyStrip s)) "SELECT" = true ∧
      (∀ k ∈ dangerousKeywords, pyContains (pyUpper (pyStrip s)) k = false) ∧
      ((extractSql emptyRegexEnv c3resp).extraction_method ≠
          "structured_json" → isValidSqlFormat s = true)) :=
  ⟨by decide, c3_accepted_sql_guarantees emptyRegexEnv c3resp (by decide)⟩

/-! ## Model of `SmartRetryManager` (`smart_retry.py`)

The regex-based error classification (`SmartErrorHandler.error_patterns`)
is the `classify` parameter; the fixed retryable-category set, the
per-category fix suggestions, the retry loop and the backoff arithmetic
are modelled concretely.  `time.sleep` has no observable effect in the
model; `random.uniform(0, x)` is modelled as `u * x` for a sample
`u ∈ [0, 1]`. -/

/-- Model of `ErrorCategory` (`smart_retry.py`). -/
inductive ErrorCategory where
  | sql_extraction_failed
  | sql_syntax_error
  | sql_security_error
  | database_error
  | llm_connection_error
  | llm_response_error
  | validation_error
  | timeout_error
  | unknown_error
  deriving DecidableEq

/-- The fixed retryable set hard-coded in
`SmartErrorHandler.categorize_error`. -/
def retryableCategories : List ErrorCategory :=
  [.sql_extraction_failed, .llm_connection_error, .llm_response_error,
   .timeout_error]

/-- Model of `RetryStrategy` (dataclass defaults in the source). -/
structure RetryStrategy where
  max_attempts : Nat
  base_delay : ℚ
  max_delay : ℚ
  exponential_base : ℚ
  jitter : Bool
  retry_on_categories : List ErrorCategory
  deriving DecidableEq

/-- The dataclass default `RetryStrategy()`. -/
def defaultRetryStrategy : RetryStrategy :=
  { max_attempts := 3, base_delay := 1, max_delay := 30,
    exponential_base := 2, jitter := true,
    retry_on_categories := retryableCategories }

/-- Model of `SmartErrorHandler.fix_suggestions` lookup with its default. -/
def fixSuggestions (c : ErrorCategory) : List String :=
  match c with
  | .sql_extraction_failed =>
    ["檢查LLM回應格式是否正確", "嘗試使用更明確的Prompt指示",
     "檢查是否需要調整SQL提取模式", "考慮使用Few-shot範例引導"]
  | .sql_syntax_error =>
    ["檢查SQL語法是否符合SQLite標準", "確認資料表和欄位名稱正確",
     "檢查括號、引號是否配對", "簡化SQL查詢結構"]
  | .sql_security_error =>
    ["移除危險的SQL關鍵字", "使用允許的查詢操作",
     "避免存取敏感欄位", "添加適當的安全限制"]
  | .database_error =>
    ["檢查資料表名稱是否正確", "確認欄位名稱拼寫無誤",
     "檢查資料庫連線狀態", "驗證資料庫權限設定"]
  | .llm_connection_error =>
    ["檢查Ollama服務是否正常運行", "確認網路連線正常",
     "檢查模型是否已載入", "嘗試重新啟動LLM服務"]
  | .llm_response_error =>
    ["檢查LLM回應格式", "調整Prompt以獲得更好的結構化輸出",
     "增加回應驗證邏輯", "考慮使用不同的提取策略"]
  | _ => ["檢查錯誤詳情並手動修復"]

/-- Model of `QueryRetryContext` (`sql_models.py`). -/
structure QueryRetryContext where
  attempt_count : Nat
  previous_errors : List String
  retry_strategy : String
  last_sql : Option String
  improvements : List String
  deriving DecidableEq

/-- Result of one `execute_with_retry` run: how many times the
operation was invoked, the returned value or the raised error (the
`none` error models Python's `raise None` when `max_attempts = 0`),
and the final mutated context. -/
structure RetryRun (α : Type) where
  calls : Nat
  outcome : Except (Option String) α
  ctx : QueryRetryContext

/-- The `for attempt in range(max_attempts)` loop of
`SmartRetryManager.execute_with_retry`; `remaining` counts the
iterations left (`remaining = max_attempts - attempt`). -/
def retryGo (classify : String → ErrorCategory) (strat : RetryStrategy)
    (op : Nat → Except String α) (attempt : Nat) (remaining : Nat)
    (ctx : QueryRetryContext) (lastErr : Option String) : RetryRun α :=
  match remaining with
  | 0 => { calls := 0, outcome := .error lastErr, ctx := ctx }
  | r + 1 =>
    let ctx1 := { ctx with attempt_count := attempt + 1 }
    match op attempt with
    | .ok v => { calls := 1, outcome := .ok v, ctx := ctx1 }
    | .error e =>
      let ctx2 :=
        { ctx1 with previous_errors := ctx1.previous_errors ++ [e] }
      if ¬(classify e ∈ retryableCategories ∧
          classify e ∈ strat.retry_on_categories) then
        { calls := 1, outcome := .error (some e), ctx := ctx2 }
      else if r = 0 then
        { calls := 1, outcome := .error (some e), ctx := ctx2 }
      else
        let ctx3 := { ctx2 with
          improvements := ctx2.improvements ++ fixSuggestions (classify e) }
        let rest := retryGo classify strat op (attempt + 1) r ctx3 (some e)
        { calls := rest.calls + 1, outcome := rest.outcome, ctx := rest.ctx }

/-- Model of `SmartRetryManager.execute_with_retry`, with the operation's
behaviour on its i-th invocation given by `op i`. -/
def executeWithRetry (classify : String → ErrorCategory)
    (strat : RetryStrategy) (op : Nat → Except String α)
    (ctx : QueryRetryContext) : RetryRun α :=
  retryGo classify strat op 0 strat.max_attempts ctx none

/-- Model of `SmartRetryManager._calculate_delay` before jitter:
`min(base_delay * exponential_base ** attempt, max_delay)`. -/
def calculateDelayPre (strat : RetryStrategy) (attempt : Nat) : ℚ :=
  min (strat.base_delay * strat.exponential_base ^ attempt) strat.max_delay

/-- Model of `SmartRetryManager._calculate_delay`, with the uniform sample of
`random.uniform(0, 0.1 * delay)` given as `u * (0.1 * delay)` for
`u ∈ [0, 1]`. -/
def calculateDelay (strat : RetryStrategy) (u : ℚ) (attempt : Nat) : ℚ :=
  if strat.jitter then
    calculateDelayPre strat attempt +
      u * (mkRat 1 10 * calculateDelayPre strat attempt)
  else calculateDelayPre strat attempt

/-! ## Claim theorems for the Retry Orchestrator -/

/-- The loop body never runs more often than `remaining` allows. -/
theorem retryGo_calls_le (classify : String → ErrorCategory)
    (strat : RetryStrategy) (op : Nat → Except String α) :
    ∀ (remaining attempt : Nat) (ctx : QueryRetryContext)
      (lastErr : Option String),
      (retryGo classify strat op attempt remaining ctx lastErr).calls ≤
        remaining := by
  intro remaining
  induction remaining with
  | zero =>
    intro attempt ctx lastErr
    exact Nat.le_refl 0
  | succ r ih =>
    intro attempt ctx lastErr
    unfold retryGo
    rcases op attempt with e | v
    · dsimp only
      split
      · exact Nat.le_add_left 1 r
      · split
        · exact Nat.le_add_left 1 r
        · have := ih (attempt + 1)
            { attempt_count := attempt + 1,
              previous_errors := ctx.previous_errors ++ [e],
              retry_strategy := ctx.retry_strategy,
              last_sql := ctx.last_sql,
              improvements := ctx.improvements ++
                fixSuggestions (classify e) } (some e)
          dsimp only
          omega
    · exact Nat.le_add_left 1 r

/-- On an all-retryable failure run, the loop performs exactly
`remaining` calls, raises the last error, and appends every error
message to the context history in order. -/
theorem retryGo_all_fail (classify : String → ErrorCategory)
    (strat : RetryStrategy) (op : Nat → Except String α)
    (errs : Nat → String) :
    ∀ (r attempt : Nat) (ctx : QueryRetryContext) (lastErr : Option String),
      1 ≤ r →
      (∀ i, attempt ≤ i → i < attempt + r → op i = .error (errs i)) →
      (∀ i, attempt ≤ i → i < attempt + r →
        classify (errs i) ∈ retryableCategories ∧
        classify (errs i) ∈ strat.retry_on_categories) →
      (retryGo classify strat op attempt r ctx lastErr).calls = r ∧
      (retryGo classify strat op attempt r ctx lastErr).outcome =
        .error (some (errs (attempt + r - 1))) ∧
      (retryGo classify strat op attempt r ctx lastErr).ctx.previous_errors =
        ctx.previous_errors ++
          (List.range r).map (fun k => errs (attempt + k)) := by
  intro r
  induction r with
  | zero =>
    intro attempt ctx lastErr h1
    omega
  | succ r ih =>
    intro attempt ctx lastErr h1 hop hretry
    have hopa : op attempt = .error (errs attempt) :=
      hop attempt (Nat.le_refl _) (by omega)
    have hra := hretry attempt (Nat.le_refl _) (by omega)
    unfold retryGo
    rw [hopa]
    dsimp only
    rw [if_neg (by simpa using hra)]
    rcases Nat.eq_zero_or_pos r with hr0 | hrpos
    · subst hr0
      rw [if_pos rfl]
      refine ⟨rfl, rfl, ?_⟩
      dsimp only
      have hr1 : List.range (0 + 1) = [0] := by decide
      rw [hr1]
      simp
    · rw [if_neg (by omega)]
      have hih := ih (attempt + 1)
        { attempt_count := attempt + 1,
          previous_errors := ctx.previous_errors ++ [errs attempt],
          retry_strategy := ctx.retry_strategy,
          last_sql := ctx.last_sql,
          improvements := ctx.improvements ++
            fixSuggestions (classify (errs attempt)) } (some (errs attempt))
        (by omega)
        (fun i hi1 hi2 => hop i (by omega) (by omega))
        (fun i hi1 hi2 => hretry i (by omega) (by omega))
      refine ⟨?_, ?_, ?_⟩
      · dsimp only
        rw [hih.1]
      · dsimp only
        rw [hih.2.1]
        congr 3
        omega
      · dsimp only
        rw [hih.2.2]
        dsimp only
        rw [List.append_assoc]
        congr 1
        rw [List.range_succ_eq_map]
        simp only [List.map_cons, List.map_map, List.singleton_append]
        congr 1
        apply List.map_congr_left
        intro k _
        simp only [Function.comp_apply]
        congr 1
        omega

/-- C6: for failures all classified retryable, `execute_with_retry`
invokes the operation at most (and, when every attempt fails, exactly)
`max_attempts` times, then raises the last error with the full error
history recorded in the retry context; a failure classified
non-retryable on the first attempt stops the loop immediately after one
invocation. -/
theorem c6_retry_termination (classify : String → ErrorCategory)
    (strat : RetryStrategy) (op : Nat → Except String α)
    (ctx : QueryRetryContext) (errs : Nat → String) :
    ((executeWithRetry classify strat op ctx).calls ≤ strat.max_attempts) ∧
    (1 ≤ strat.max_attempts →
      (∀ i, i < strat.max_attempts → op i = .error (errs i)) →
      (∀ i, i < strat.max_attempts →
        classify (errs i) ∈ retryableCategories ∧
        classify (errs i) ∈ strat.retry_on_categories) →
      (executeWithRetry classify strat op ctx).calls = strat.max_attempts ∧
      (executeWithRetry classify strat op ctx).outcome =
        .error (some (errs (strat.max_attempts - 1))) ∧
      (executeWithRetry classify strat op ctx).ctx.previous_errors =
        ctx.previous_errors ++ (List.range strat.max_attempts).map errs) ∧
    (∀ e, op 0 = .error e →
      ¬(classify e ∈ retryableCategories ∧
        classify e ∈ strat.retry_on_categories) →
      1 ≤ strat.max_attempts →
      (executeWithRetry classify strat op ctx).calls = 1 ∧
      (executeWithRetry classify strat op ctx).outcome = .error (some e)) := by
  refine ⟨retryGo_calls_le classify strat op _ _ _ _, ?_, ?_⟩
  · intro hma hop hretry
    have h := retryGo_all_fail classify strat op errs strat.max_attempts 0
      ctx none hma (fun i hi1 hi2 => hop i (by omega))
      (fun i hi1 hi2 => hretry i (by omega))
    refine ⟨h.1, by simpa using h.2.1, ?_⟩
    have h2 := h.2.2
    simpa using h2
  · intro e hop hnr hma
    unfold executeWithRetry
    rcases hm : strat.max_attempts with _ | r
    · omega
    · unfold retryGo
      rw [hop]
      dsimp only
      rw [if_pos (by simpa using hnr)]
      exact ⟨rfl, rfl⟩

/-- Concrete classifier for the C6 witness. -/
def c6classify : String → ErrorCategory := fun _ => .timeout_error

/-- Concrete always-failing operation for the C6 witness. -/
def c6op : Nat → Except String Nat := fun _ => .error "boom"

/-- Concrete fresh retry context for the C6 witness. -/
def c6ctx : QueryRetryContext :=
  { attempt_count := 0, previous_errors := [], retry_strategy := "RetryStrategy",
    last_sql := none, improvements := [] }

/-- C6 witness: the theorem applied at the default strategy and an
operation that fails with a retryable error on all three attempts, and
a second application with a non-retryable classification stopping after
one call. -/
theorem c6_retry_termination_witness :
    ((executeWithRetry c6classify defaultRetryStrategy c6op c6ctx).calls ≤ 3 ∧
     (executeWithRetry c6classify defaultRetryStrategy c6op c6ctx).calls = 3 ∧
     (executeWithRetry c6classify defaultRetryStrategy c6op c6ctx).outcome =
       .error (some "boom") ∧
     (executeWithRetry c6classify defaultRetryStrategy c6op
         c6ctx).ctx.previous_errors = ["boom", "boom", "boom"]) ∧
    ((executeWithRetry (fun _ => ErrorCategory.sql_syntax_error)
        defaultRetryStrategy c6op c6ctx).calls = 1 ∧
     (executeWithRetry (fun _ => ErrorCategory.sql_syntax_error)
        defaultRetryStrategy c6op c6ctx).outcome = .error (some "boom")) := by
  have h1 := c6_retry_termination c6classify defaultRetryStrategy c6op c6ctx
    (fun _ => "boom")
  have h2 := c6_retry_termination (fun _ => ErrorCategory.sql_syntax_error)
    defaultRetryStrategy c6op c6ctx (fun _ => "boom")
  have hall := h1.2.1 (by decide) (fun i _ => rfl) (fun i _ => by decide)
  refine ⟨⟨h1.1, hall.1, hall.2.1, by simpa using hall.2.2⟩, ?_⟩
  exact h2.2.2 "boom" rfl (by decide) (by decide)

/-- C9: the pre-jitter retry delay equals
`min(max_delay, base_delay * exponential_base ^ attempt)`; the returned
delay adds a jitter lying in `[0, 0.1 * pre-jitter delay]`; and for
attempt indices `i ≤ j` the pre-jitter delay is monotone (given a
non-negative base delay and cap and a growth rate ≥ 1, as in the
defaults). -/
theorem c9_backoff_delay (strat : RetryStrategy) (i j : Nat) (u : ℚ)
    (hbase : 0 ≤ strat.base_delay) (hmax : 0 ≤ strat.max_delay)
    (hexp : 1 ≤ strat.exponential_base) (hu0 : 0 ≤ u) (hu1 : u ≤ 1) :
    calculateDelayPre strat i =
      min strat.max_delay (strat.base_delay * strat.exponential_base ^ i) ∧
    0 ≤ calculateDelay strat u i - calculateDelayPre strat i ∧
    calculateDelay strat u i - calculateDelayPre strat i ≤
      mkRat 1 10 * calculateDelayPre strat i ∧
    (i ≤ j → calculateDelayPre strat i ≤ calculateDelayPre strat j) := by
  have hpow : (0:ℚ) ≤ strat.exponential_base ^ i := by positivity
  have hpre0 : 0 ≤ calculateDelayPre strat i := by
    unfold calculateDelayPre
    apply le_min
    · exact mul_nonneg hbase hpow
    · exact hmax
  have htenth : (0:ℚ) ≤ mkRat 1 10 * calculateDelayPre strat i := by
    apply mul_nonneg _ hpre0
    norm_num
  refine ⟨min_comm _ _, ?_, ?_, ?_⟩
  · unfold calculateDelay
    split
    · have : 0 ≤ u * (mkRat 1 10 * calculateDelayPre strat i) :=
        mul_nonneg hu0 htenth
      linarith
    · simp
  · unfold calculateDelay
    split
    · have : u * (mkRat 1 10 * calculateDelayPre strat i) ≤
          1 * (mkRat 1 10 * calculateDelayPre strat i) :=
        mul_le_mul_of_nonneg_right hu1 htenth
      rw [one_mul] at this
      linarith
    · simpa using htenth
  · intro hij
    unfold calculateDelayPre
    apply min_le_min _ (le_refl strat.max_delay)
    apply mul_le_mul_of_nonneg_left _ hbase
    exact pow_le_pow_right₀ hexp hij

/-- When the basic check fails, `validate_sql` returns its result for
every parser — no parse is attempted. -/
theorem validateSqlWith_eq_basic (parse : String → List (List Tok))
    (sql : String) (h : (basicValidation sql).is_valid = false) :
    validateSqlWith parse sql = basicValidation sql := by
  unfold validateSqlWith
  rw [if_pos h]

/-- A `SELECT`-prefixed input containing a forbidden keyword substring
fails `_basic_validation` with `forbidden_keyword`. -/
theorem basicValidation_forbidden (sql kw : String)
    (hsel : pyStartsWith (pyUpper (pyStrip sql)) "SELECT" = true)
    (hkw : kw ∈ forbiddenKeywords)
    (hc : pyContains (pyUpper (pyStrip sql)) kw = true) :
    (basicValidation sql).is_valid = false ∧
    (basicValidation sql).is_safe = false ∧
    (basicValidation sql).error_type = some "forbidden_keyword" := by
  have hne : ¬(sql = "" ∨ pyStrip sql = "") := by
    rintro (h0 | h0) <;> (rw [h0] at hsel; exact absurd hsel (by decide))
  unfold basicValidation
  rw [if_neg hne, if_neg (by simp [hsel])]
  rcases hfind : forbiddenKeywords.find?
      (fun k => pyContains (pyUpper (pyStrip sql)) k) with _ | k2
  · exact absurd hc (by simpa using List.find?_eq_none.mp hfind kw hkw)
  · simp only [hfind]
    exact ⟨trivial, trivial, trivial⟩

/-- C9 witness: the theorem applied at the default strategy,
`i = 1 ≤ j = 2`, `u = 1/2`. -/
theorem c9_backoff_delay_witness :
    (0 ≤ defaultRetryStrategy.base_delay ∧
     0 ≤ defaultRetryStrategy.max_delay ∧
     1 ≤ defaultRetryStrategy.exponential_base ∧
     0 ≤ mkRat 1 2 ∧ mkRat 1 2 ≤ 1 ∧ (1:Nat) ≤ 2) ∧
    (calculateDelayPre defaultRetryStrategy 1 =
      min defaultRetryStrategy.max_delay
        (defaultRetryStrategy.base_delay *
          defaultRetryStrategy.exponential_base ^ 1) ∧
     0 ≤ calculateDelay defaultRetryStrategy (mkRat 1 2) 1 -
        calculateDelayPre defaultRetryStrategy 1 ∧
     calculateDelay defaultRetryStrategy (mkRat 1 2) 1 -
        calculateDelayPre defaultRetryStrategy 1 ≤
       mkRat 1 10 * calculateDelayPre defaultRetryStrategy 1 ∧
     ((1:Nat) ≤ 2 → calculateDelayPre defaultRetryStrategy 1 ≤
        calculateDelayPre defaultRetryStrategy 2)) := by
  have h := c9_backoff_delay defaultRetryStrategy 1 2 (mkRat 1 2)
    (by norm_num [defaultRetryStrategy]) (by norm_num [defaultRetryStrategy])
    (by norm_num [defaultRetryStrategy]) (by norm_num) (by norm_num)
  exact ⟨⟨by norm_num [defaultRetryStrategy], by norm_num [defaultRetryStrategy],
    by norm_num [defaultRetryStrategy], by norm_num, by norm_num, by norm_num⟩, h⟩

/-! ## Model of `DatabaseManager` (`db_manager.py`)

`execute_query` is modelled with the storage layer
(`pd.read_sql_query` over `sqlite3`), the content hash
(`hashlib.md5`) and the measured elapsed time as parameters.  A
storage failure models an `sqlite3.Error` raised during execution.
Query results (`pd.DataFrame`s) are modelled as lists of rows over an
arbitrary row type; `df.copy()` is the identity on immutable lists. -/

/-- Model of `DANGEROUS_SQL_KEYWORDS` (module constant, list order preserved). -/
def dangerousSqlKeywords : List String :=
  ["DROP", "DELETE", "UPDATE", "INSERT", "ALTER", "CREATE", "TRUNCATE",
   "EXEC", "EXECUTE", "UNION", "SCRIPT", "--", "/*", "*/", ";--"]

/-- Model of `DatabaseManager._validate_sql_query`: returns
`(is_safe, error message)`. -/
def dbValidateSqlQuery (sql : String) : Bool × String :=
  match dangerousSqlKeywords.find?
      (fun k => pyContains (pyStrip (pyUpper sql)) k) with
  | some k => (false, "禁止使用關鍵字: " ++ k)
  | none =>
    if ¬ pyStartsWith (pyStrip (pyUpper sql)) "SELECT" then
      (false, "只允許SELECT查詢")
    else if 1 < pyCountChar sql ';' then
      (false, "不允許多重查詢")
    else if pyContains sql "--" ∨ pyContains sql "/*" then
      (false, "不允許SQL註釋")
    else (true, "")

/-- The `self.stats` dictionary. -/
structure DBStats where
  queries_executed : Nat
  cache_hits : Nat
  last_query_time : Option ℚ
  total_query_time : ℚ
  deriving DecidableEq

/-- One row of the `query_log` audit table (`_log_query` insert). -/
structure QueryLogEntry where
  user_id : String
  query_hash : String
  query_text : String
  result_count : Nat
  execution_time : ℚ
  deriving DecidableEq

/-- The mutable state of a `DatabaseManager`: the bounded query cache,
its capacity, the `max_results` cap, the stats counters and the
append-only audit log. -/
structure DBState (Row : Type) where
  query_cache : List (String × List Row)
  cache_size : Nat
  max_results : Nat
  stats : DBStats
  query_log : List QueryLogEntry
  deriving DecidableEq

/-- Dictionary lookup in the query cache. -/
def lookupCache (cache : List (String × List Row)) (h : String) :
    Option (List Row) :=
  (cache.find? (fun p => p.fst = h)).map Prod.snd

instance {ε α : Type} [DecidableEq ε] [DecidableEq α] :
    DecidableEq (Except ε α) := fun a b =>
  match a, b with
  | .error e1, .error e2 =>
    if h : e1 = e2 then isTrue (by rw [h]) else isFalse (by simp [h])
  | .ok v1, .ok v2 =>
    if h : v1 = v2 then isTrue (by rw [h]) else isFalse (by simp [h])
  | .error _, .ok _ => isFalse (by simp)
  | .ok _, .error _ => isFalse (by simp)

/-- The result cap (`if len(df) > max_results: df = df.head(max_results)`). -/
def capRows (maxResults : Nat) (df : List Row) : List Row :=
  if maxResults < df.length then df.take maxResults else df

/-- Model of `DatabaseManager.execute_query`.  `hash` models
`_generate_query_hash` (`hashlib.md5` hexdigest), `storage` models
`pd.read_sql_query` against the SQLite schema (an error is an
`sqlite3.Error`), `elapsed` is the measured wall-clock duration. -/
def executeQuery (hash : String → String)
    (storage : String → Option String → Except String (List Row))
    (elapsed : ℚ) (st : DBState Row) (sql : String) (params : Option String)
    (user_id : String) : Except String (List Row) × DBState Row :=
  match dbValidateSqlQuery sql with
  | (false, msg) =>
    (.error ("查詢處理失敗: SQL查詢不安全: " ++ msg), st)
  | (true, _) =>
    match lookupCache st.query_cache (hash (sql ++ params.getD "")) with
    | some df =>
      (.ok df,
       { st with stats :=
          { st.stats with cache_hits := st.stats.cache_hits + 1 } })
    | none =>
      match storage sql params with
      | .error e => (.error ("SQL查詢執行失敗: " ++ e), st)
      | .ok df =>
        (.ok (capRows st.max_results df),
         { st with
            query_cache :=
              if st.query_cache.length < st.cache_size then
                st.query_cache ++
                  [(hash (sql ++ params.getD ""), capRows st.max_results df)]
              else st.query_cache,
            stats :=
              { queries_executed := st.stats.queries_executed + 1,
                cache_hits := st.stats.cache_hits,
                last_query_time := some elapsed,
                total_query_time := st.stats.total_query_time + elapsed },
            query_log := st.query_log ++
              [{ user_id := user_id, query_hash := hash sql,
                 query_text := sql,
                 result_count := (capRows st.max_results df).length,
                 execution_time := elapsed }] })

/-- Running `execute_query` on a statement the gateway's own check rejects:
the wrapped error is raised and the state is untouched. -/
theorem executeQuery_invalid {Row : Type} (hash : String → String)
    (storage : String → Option String → Except String (List Row))
    (elapsed : ℚ) (st : DBState Row) (sql : String) (params : Option String)
    (user : String) (msg : String)
    (hv : dbValidateSqlQuery sql = (false, msg)) :
    executeQuery hash storage elapsed st sql params user =
      (.error ("查詢處理失敗: SQL查詢不安全: " ++ msg), st) := by
  unfold executeQuery
  rw [hv]

/-- Running `execute_query` on a cache hit: the cached rows are returned, only
`cache_hits` changes, storage is not consulted. -/
theorem executeQuery_cache_hit {Row : Type} (hash : String → String)
    (storage : String → Option String → Except String (List Row))
    (elapsed : ℚ) (st : DBState Row) (sql : String) (params : Option String)
    (user : String) (m : String) (df : List Row)
    (hv : dbValidateSqlQuery sql = (true, m))
    (hhit : lookupCache st.query_cache (hash (sql ++ params.getD "")) =
      some df) :
    executeQuery hash storage elapsed st sql params user =
      (.ok df,
       { st with stats :=
          { st.stats with cache_hits := st.stats.cache_hits + 1 } }) := by
  unfold executeQuery
  rw [hv]
  dsimp only
  rw [hhit]

/-- Running `execute_query` on a cache miss with successful storage execution. -/
theorem executeQuery_miss_ok {Row : Type} (hash : String → String)
    (storage : String → Option String → Except String (List Row))
    (elapsed : ℚ) (st : DBState Row) (sql : String) (params : Option String)
    (user : String) (m : String) (df : List Row)
    (hv : dbValidateSqlQuery sql = (true, m))
    (hmiss : lookupCache st.query_cache (hash (sql ++ params.getD "")) = none)
    (hst : storage sql params = .ok df) :
    executeQuery hash storage elapsed st sql params user =
      (.ok (capRows st.max_results df),
       { st with
          query_cache :=
            if st.query_cache.length < st.cache_size then
              st.query_cache ++
                [(hash (sql ++ params.getD ""), capRows st.max_results df)]
            else st.query_cache,
          stats :=
            { queries_executed := st.stats.queries_executed + 1,
              cache_hits := st.stats.cache_hits,
              last_query_time := some elapsed,
              total_query_time := st.stats.total_query_time + elapsed },
          query_log := st.query_log ++
            [{ user_id := user, query_hash := hash sql, query_text := sql,
               result_count := (capRows st.max_results df).length,
               execution_time := elapsed }] }) := by
  unfold executeQuery
  rw [hv]
  dsimp only
  rw [hmiss]
  dsimp only
  rw [hst]

/-- Running `execute_query` on a cache miss with a storage failure: the wrapped
error is raised and the state — audit log included — is untouched. -/
theorem executeQuery_miss_error {Row : Type} (hash : String → String)
    (storage : String → Option String → Except String (List Row))
    (elapsed : ℚ) (st : DBState Row) (sql : String) (params : Option String)
    (user : String) (m : String) (e : String)
    (hv : dbValidateSqlQuery sql = (true, m))
    (hmiss : lookupCache st.query_cache (hash (sql ++ params.getD "")) = none)
    (hst : storage sql params = .error e) :
    executeQuery hash storage elapsed st sql params user =
      (.error ("SQL查詢執行失敗: " ++ e), st) := by
  unfold executeQuery
  rw [hv]
  dsimp only
  rw [hmiss]
  dsimp only
  rw [hst]

/-! ## Claim theorems for the Execution Gateway -/

/-- C7 (amended): `execute_query` appends exactly one audit log entry —
recording the user, the statement hash, the (capped) row count and the
elapsed time — when and only when the statement executes successfully
against storage; a call that fails (gateway validation or storage
error) or is served from the cache appends no entry.  The claim's
"regardless of outcome" is refuted by the counterexample. -/
theorem c7_audit_log_on_success_only {Row : Type} (hash : String → String)
    (storage : String → Option String → Except String (List Row))
    (elapsed : ℚ) (st : DBState Row) (sql : String) (params : Option String)
    (user : String) :
    ((dbValidateSqlQuery sql).fst = true →
      lookupCache st.query_cache (hash (sql ++ params.getD "")) = none →
      ∀ df, storage sql params = .ok df →
        (executeQuery hash storage elapsed st sql params user).snd.query_log =
          st.query_log ++
            [{ user_id := user, query_hash := hash sql, query_text := sql,
               result_count := (capRows st.max_results df).length,
               execution_time := elapsed }]) ∧
    (∀ e, (executeQuery hash storage elapsed st sql params user).fst =
        .error e →
      (executeQuery hash storage elapsed st sql params user).snd.query_log =
        st.query_log) ∧
    (∀ df, (dbValidateSqlQuery sql).fst = true →
      lookupCache st.query_cache (hash (sql ++ params.getD "")) = some df →
      (executeQuery hash storage elapsed st sql params user).snd.query_log =
        st.query_log) := by
  refine ⟨?_, ?_, ?_⟩
  · intro hvalid hmiss df hst
    rcases hv : dbValidateSqlQuery sql with ⟨b, m⟩
    rw [hv] at hvalid
    dsimp only at hvalid
    subst hvalid
    rw [executeQuery_miss_ok hash storage elapsed st sql params user m df hv
      hmiss hst]
  · intro e herr
    rcases hv : dbValidateSqlQuery sql with ⟨b, m⟩
    rcases b with _ | _
    · rw [executeQuery_invalid hash storage elapsed st sql params user m hv]
    · rcases hl : lookupCache st.query_cache (hash (sql ++ params.getD ""))
          with _ | df
      · rcases hs : storage sql params with e2 | df2
        · rw [executeQuery_miss_error hash storage elapsed st sql params user
            m e2 hv hl hs]
        · rw [executeQuery_miss_ok hash storage elapsed st sql params user
            m df2 hv hl hs] at herr
          cases herr
      · rw [executeQuery_cache_hit hash storage elapsed st sql params user
          m df hv hl] at herr
        cases herr
  · intro df hvalid hhit
    rcases hv : dbValidateSqlQuery sql with ⟨b, m⟩
    rw [hv] at hvalid
    dsimp only at hvalid
    subst hvalid
    rw [executeQuery_cache_hit hash storage elapsed st sql params user m df
      hv hhit]

/-- The identity content hash used for concrete gateway runs. -/
def idHash : String → String := fun s => s

/-- A fresh manager state for concrete gateway runs (empty cache of
capacity 100, `max_results = 1000`, zeroed stats, empty audit log). -/
def freshDBState : DBState Nat :=
  { query_cache := [], cache_size := 100, max_results := 1000,
    stats := { queries_executed := 0, cache_hits := 0,
               last_query_time := none, total_query_time := 0 },
    query_log := [] }

/-- A storage layer failing with an `sqlite3`-style error. -/
def failingStorage : String → Option String → Except String (List Nat) :=
  fun _ _ => .error "no such table: CO01M"

/-- A storage layer returning one row. -/
def oneRowStorage : String → Option String → Except String (List Nat) :=
  fun _ _ => .ok [5]

/-- C7 counterexample: when storage fails, `execute_query` raises and
appends no audit log entry — the log stays empty, contradicting the
claimed "exactly one entry … when it fails with a storage error". -/
theorem c7_storage_failure_appends_no_entry :
    (executeQuery idHash failingStorage 0 freshDBState
        "SELECT mname FROM CO01M" none "system").fst =
      .error "SQL查詢執行失敗: no such table: CO01M" ∧
    (executeQuery idHash failingStorage 0 freshDBState
        "SELECT mname FROM CO01M" none "system").snd.query_log = [] := by
  decide

/-- C7 witness: the amended theorem applied to a concrete successful
call (one entry appended) and to the concrete storage failure (none). -/
theorem c7_audit_log_witness :
    ((dbValidateSqlQuery "SELECT mname FROM CO01M").fst = true ∧
     lookupCache freshDBState.query_cache
        (idHash ("SELECT mname FROM CO01M" ++ (none : Option String).getD ""))
        = none ∧
     oneRowStorage "SELECT mname FROM CO01M" none = .ok [5] ∧
     (executeQuery idHash oneRowStorage 0 freshDBState
        "SELECT mname FROM CO01M" none "system").snd.query_log =
       freshDBState.query_log ++
         [{ user_id := "system",
            query_hash := idHash "SELECT mname FROM CO01M",
            query_text := "SELECT mname FROM CO01M",
            result_count := (capRows freshDBState.max_results [5]).length,
            execution_time := 0 }]) ∧
    ((executeQuery idHash failingStorage 0 freshDBState
        "SELECT mname FROM CO01M" none "system").fst =
       .error "SQL查詢執行失敗: no such table: CO01M" ∧
     (executeQuery idHash failingStorage 0 freshDBState
        "SELECT mname FROM CO01M" none "system").snd.query_log =
       freshDBState.query_log) := by
  have h1 := (c7_audit_log_on_success_only idHash oneRowStorage 0 freshDBState
    "SELECT mname FROM CO01M" none "system").1 (by decide) (by decide) [5] rfl
  have h2 := (c7_audit_log_on_success_only idHash failingStorage 0 freshDBState
    "SELECT mname FROM CO01M" none "system").2.1
    "SQL查詢執行失敗: no such table: CO01M" (by decide)
  exact ⟨⟨by decide, by decide, rfl, h1⟩, ⟨by decide, h2⟩⟩

/-- C8 (amended): two consecutive `execute_query` calls with the same
statement and parameters return the same rows without touching storage
a second time — the second call is a cache hit and does not increment
`queries_executed` — provided the first call executed successfully and
the cache had spare capacity to store its result.  Without capacity no
entry is stored (there is no eviction) and the second call re-executes;
see the counterexample. -/
theorem c8_second_call_served_from_cache {Row : Type}
    (hash : String → String)
    (storage : String → Option String → Except String (List Row))
    (e1 e2 : ℚ) (st : DBState Row) (sql : String) (params : Option String)
    (user : String) (m : String) (df : List Row)
    (hv : dbValidateSqlQuery sql = (true, m))
    (hmiss : lookupCache st.query_cache (hash (sql ++ params.getD "")) = none)
    (hcap : st.query_cache.length < st.cache_size)
    (hst : storage sql params = .ok df) :
    (executeQuery hash storage e2
        (executeQuery hash storage e1 st sql params user).snd
        sql params user).fst =
      (executeQuery hash storage e1 st sql params user).fst ∧
    (executeQuery hash storage e2
        (executeQuery hash storage e1 st sql params user).snd
        sql params user).snd.stats.queries_executed =
      (executeQuery hash storage e1 st sql params user).snd.stats.queries_executed ∧
    (executeQuery hash storage e2
        (executeQuery hash storage e1 st sql params user).snd
        sql params user).snd.stats.cache_hits =
      (executeQuery hash storage e1 st sql params user).snd.stats.cache_hits
        + 1 := by
  have h1 := executeQuery_miss_ok hash storage e1 st sql params user m df hv
    hmiss hst
  rw [h1]
  dsimp only
  rw [if_pos hcap]
  have hfind : (st.query_cache.find?
      (fun p => decide (p.fst = hash (sql ++ params.getD "")))) = none := by
    unfold lookupCache at hmiss
    exact Option.map_eq_none.mp hmiss
  have hhit2 : lookupCache
      (st.query_cache ++
        [(hash (sql ++ params.getD ""), capRows st.max_results df)])
      (hash (sql ++ params.getD "")) =
      some (capRows st.max_results df) := by
    unfold lookupCache
    rw [List.find?_append, hfind]
    simp
  have h2 := executeQuery_cache_hit hash storage e2
    { st with
        query_cache := st.query_cache ++
          [(hash (sql ++ params.getD ""), capRows st.max_results df)],
        stats :=
          { queries_executed := st.stats.queries_executed + 1,
            cache_hits := st.stats.cache_hits,
            last_query_time := some e1,
            total_query_time := st.stats.total_query_time + e1 },
        query_log := st.query_log ++
          [{ user_id := user, query_hash := hash sql, query_text := sql,
             result_count := (capRows st.max_results df).length,
             execution_time := e1 }] }
    sql params user m (capRows st.max_results df) hv (by exact hhit2)
  rw [h2]
  exact ⟨rfl, rfl, rfl⟩

/-- A manager state configured with a zero-capacity cache. -/
def zeroCacheDBState : DBState Nat :=
  { query_cache := [], cache_size := 0, max_results := 1000,
    stats := { queries_executed := 0, cache_hits := 0,
               last_query_time := none, total_query_time := 0 },
    query_log := [] }

/-- C8 counterexample: with no spare cache capacity the first call's
result is never stored (the cache evicts nothing), so the second
identical call executes against storage again and increments
`queries_executed` from 1 to 2, contradicting the claim as stated for
every state. -/
theorem c8_full_cache_second_call_hits_storage :
    (executeQuery idHash oneRowStorage 0 zeroCacheDBState
        "SELECT mname FROM CO01M" none "system").snd.stats.queries_executed
      = 1 ∧
    (executeQuery idHash oneRowStorage 0
        (executeQuery idHash oneRowStorage 0 zeroCacheDBState
          "SELECT mname FROM CO01M" none "system").snd
        "SELECT mname FROM CO01M" none "system").snd.stats.queries_executed
      = 2 ∧
    (executeQuery idHash oneRowStorage 0
        (executeQuery idHash oneRowStorage 0 zeroCacheDBState
          "SELECT mname FROM CO01M" none "system").snd
        "SELECT mname FROM CO01M" none "system").snd.stats.cache_hits
      = 0 := by
  decide

/-- C8 witness: the amended theorem applied to a concrete first call
with spare capacity, whose repeat is served from the cache. -/
theorem c8_second_call_witness :
    (dbValidateSqlQuery "SELECT mname FROM CO01M" = (true, "") ∧
     lookupCache freshDBState.query_cache
        (idHash ("SELECT mname FROM CO01M" ++ (none : Option String).getD ""))
        = none ∧
     freshDBState.query_cache.length < freshDBState.cache_size ∧
     oneRowStorage "SELECT mname FROM CO01M" none = .ok [5]) ∧
    ((executeQuery idHash oneRowStorage 0
        (executeQuery idHash oneRowStorage 0 freshDBState
          "SELECT mname FROM CO01M" none "system").snd
        "SELECT mname FROM CO01M" none "system").fst =
      (executeQuery idHash oneRowStorage 0 freshDBState
        "SELECT mname FROM CO01M" none "system").fst ∧
     (executeQuery idHash oneRowStorage 0
        (executeQuery idHash oneRowStorage 0 freshDBState
          "SELECT mname FROM CO01M" none "system").snd
        "SELECT mname FROM CO01M" none "system").snd.stats.queries_executed =
      (executeQuery idHash oneRowStorage 0 freshDBState
        "SELECT mname FROM CO01M" none
        "system").snd.stats.queries_executed ∧
     (executeQuery idHash oneRowStorage 0
        (executeQuery idHash oneRowStorage 0 freshDBState
          "SELECT mname FROM CO01M" none "system").snd
        "SELECT mname FROM CO01M" none "system").snd.stats.cache_hits =
      (executeQuery idHash oneRowStorage 0 freshDBState
        "SELECT mname FROM CO01M" none "system").snd.stats.cache_hits + 1) :=
  ⟨⟨by decide, by decide, by decide, rfl⟩,
   c8_second_call_served_from_cache idHash oneRowStorage 0 0 freshDBState
     "SELECT mname FROM CO01M" none "system" "" [5] (by decide) (by decide)
     (by decide) rfl⟩

/-- The seven write/DDL keywords are in the validator's forbidden set. -/
theorem mem_dangerous_mem_forbidden {kw : String}
    (h : kw ∈ dangerousKeywords) : kw ∈ forbiddenKeywords := by
  fin_cases h <;> decide

/-- The seven write/DDL keywords are in the gateway's dangerous set. -/
theorem mem_dangerous_mem_dbDangerous {kw : String}
    (h : kw ∈ dangerousKeywords) : kw ∈ dangerousSqlKeywords := by
  fin_cases h <;> decide

/-- C10: the forbidden-keyword checks are substring-based, not
token-based.  Any `SELECT`-prefixed input whose uppercased text
contains one of the seven write/DDL keywords as a contiguous substring
anywhere — also inside a longer identifier such as `updated_at` or a
quoted literal — is rejected by `validate_sql` with
`error_type = "forbidden_keyword"` before parsing (the result is the
basic-check result for every parser), and `execute_query` raises a
database error and leaves the state untouched for every storage layer,
which is never consulted. -/
theorem c10_keyword_substring_rejection (sql kw : String)
    (hkw : kw ∈ dangerousKeywords)
    (hsel : pyStartsWith (pyUpper (pyStrip sql)) "SELECT" = true)
    (hc1 : pyContains (pyUpper (pyStrip sql)) kw = true)
    (hc2 : pyContains (pyStrip (pyUpper sql)) kw = true) :
    (validateSql sql).is_valid = false ∧
    (validateSql sql).is_safe = false ∧
    (validateSql sql).error_type = some "forbidden_keyword" ∧
    (dbValidateSqlQuery sql).fst = false ∧
    ∀ (Row : Type) (hash : String → String)
      (storage : String → Option String → Except String (List Row))
      (elapsed : ℚ) (st : DBState Row) (params : Option String)
      (user : String),
      (executeQuery hash storage elapsed st sql params user).fst =
        .error ("查詢處理失敗: SQL查詢不安全: " ++
          (dbValidateSqlQuery sql).snd) ∧
      (executeQuery hash storage elapsed st sql params user).snd = st := by
  have hbasic := basicValidation_forbidden sql kw hsel
    (mem_dangerous_mem_forbidden hkw) hc1
  have heq := validateSqlWith_eq_basic sqlparseModel sql hbasic.1
  have hdb : ∃ k2, dangerousSqlKeywords.find?
      (fun k => pyContains (pyStrip (pyUpper sql)) k) = some k2 := by
    rcases hfind : dangerousSqlKeywords.find?
        (fun k => pyContains (pyStrip (pyUpper sql)) k) with _ | k2
    · exact absurd hc2 (by simpa using
        (List.find?_eq_none.mp hfind kw (mem_dangerous_mem_dbDangerous hkw)))
    · exact ⟨k2, rfl⟩
  obtain ⟨k2, hfind⟩ := hdb
  have hvf : dbValidateSqlQuery sql =
      (false, "禁止使用關鍵字: " ++ k2) := by
    unfold dbValidateSqlQuery
    rw [hfind]
  refine ⟨?_, ?_, ?_, ?_, ?_⟩
  · unfold validateSql
    rw [heq]
    exact hbasic.1
  · unfold validateSql
    rw [heq]
    exact hbasic.2.1
  · unfold validateSql
    rw [heq]
    exact hbasic.2.2
  · rw [hvf]
  · intro Row hash storage elapsed st params user
    have := @executeQuery_invalid Row hash storage elapsed st sql
      params user ("禁止使用關鍵字: " ++ k2) hvf
    rw [this, hvf]
    exact ⟨rfl, rfl⟩

/-- C10 witness: the theorem applied to the harmless statement
`SELECT updated_at FROM CO01M`, whose identifier `updated_at` contains
the keyword `UPDATE` as a substring, with a concrete storage layer. -/
theorem c10_keyword_substring_witness :
    ("UPDATE" ∈ dangerousKeywords ∧
     pyStartsWith (pyUpper (pyStrip "SELECT updated_at FROM CO01M"))
       "SELECT" = true ∧
     pyContains (pyUpper (pyStrip "SELECT updated_at FROM CO01M"))
       "UPDATE" = true ∧
     pyContains (pyStrip (pyUpper "SELECT updated_at FROM CO01M"))
       "UPDATE" = true) ∧
    ((validateSql "SELECT updated_at FROM CO01M").is_valid = false ∧
     (validateSql "SELECT updated_at FROM CO01M").error_type =
       some "forbidden_keyword" ∧
     (executeQuery idHash oneRowStorage 0 freshDBState
        "SELECT updated_at FROM CO01M" none "system").fst =
       .error ("查詢處理失敗: SQL查詢不安全: " ++
         (dbValidateSqlQuery "SELECT updated_at FROM CO01M").snd) ∧
     (executeQuery idHash oneRowStorage 0 freshDBState
        "SELECT updated_at FROM CO01M" none "system").snd = freshDBState) := by
  have h := c10_keyword_substring_rejection "SELECT updated_at FROM CO01M"
    "UPDATE" (by decide) (by decide) (by decide) (by decide)
  have h5 := h.2.2.2.2 Nat idHash oneRowStorage 0 freshDBState none "system"
  exact ⟨⟨by decide, by decide, by decide, by decide⟩,
    ⟨h.1, h.2.2.1, h5.1, h5.2⟩⟩

end Chat4Lab
